import Mathlib

/-!
Verification of the activity-analytics engine (`app/statsimpact`).

This file gives a shallow embedding, in Lean, of the statistics engine of the
repository: `engine.py` (filter normalization, date presets, scope
resolution, the session/presence accessor, the volume and frequency
analyzers, the "magatomatique" matrix builder) and `occupancy.py` (the
occupancy analyzer), together with the fragment of `routes.py` that clamps
the matrix-builder limits.  Database tables become Lean lists of records,
SQL queries become list filters, Python floats become rationals, and
fallible Python code (`int(...)` that may raise) returns `Except`/`Option`.
Output fields that no verified property mentions (heatmap, sector summary,
top workshops, per-workshop occupancy rows, matrix cells) are omitted from
the embedded result records; everything the theorems talk about is
translated from the source.

Theorems at the end settle the claims about this engine.
-/

namespace StatsImpact

/-! ## Python-style strings

Self-contained character-list implementations of the handful of string
operations the engine uses (`strip`, `lower`, `upper`, single-character
`replace`, `split`, `int(...)`).  They are structurally recursive so that
concrete witnesses evaluate inside the kernel.
-/

def pyIsSpace (c : Char) : Bool :=
  c = ' ' ∨ c = '\t' ∨ c = '\n' ∨ c = '\r'

def charLower (c : Char) : Char :=
  if 'A' ≤ c ∧ c ≤ 'Z' then Char.ofNat (c.toNat + 32) else c

def charUpper (c : Char) : Char :=
  if 'a' ≤ c ∧ c ≤ 'z' then Char.ofNat (c.toNat - 32) else c

/-- Python `str.strip()`. -/
def pyStrip (s : String) : String :=
  ⟨(s.data.dropWhile pyIsSpace).reverse.dropWhile pyIsSpace |>.reverse⟩

/-- Python `str.lower()` (ASCII fragment, which is all the engine feeds it). -/
def pyLower (s : String) : String := ⟨s.data.map charLower⟩

/-- Python `str.upper()` (ASCII fragment). -/
def pyUpper (s : String) : String := ⟨s.data.map charUpper⟩

/-- Python `s.replace(old, "")` for a single-character `old`. -/
def pyDropChar (s : String) (c : Char) : String :=
  ⟨s.data.filter (fun x => x ≠ c)⟩

/-- Python `s.replace(old, new)` for single characters `old`, `new`. -/
def pyReplaceChar (s : String) (old new : Char) : String :=
  ⟨s.data.map (fun x => if x = old then new else x)⟩

def pyEndsWith (s : String) (c : Char) : Bool :=
  match s.data.getLast? with
  | some x => x = c
  | none => false

def splitOnCharAux (c : Char) : List Char → List Char → List (List Char)
  | [], acc => [acc.reverse]
  | x :: xs, acc =>
      if x = c then acc.reverse :: splitOnCharAux c xs []
      else splitOnCharAux c xs (x :: acc)

/-- Python `s.split(sep)` for a single-character separator (never `[]`). -/
def pySplit (s : String) (c : Char) : List String :=
  (splitOnCharAux c s.data []).map (fun l => ⟨l⟩)

def digitsToNat : List Char → Option Nat
  | [] => none
  | l => l.foldl (fun acc c =>
      match acc with
      | none => none
      | some n => if c.isDigit then some (n * 10 + (c.toNat - 48)) else none)
      (some 0)

/-- Python `int(s)` on a string: strips whitespace, allows one sign, then
requires decimal digits; `none` models the `ValueError` being raised. -/
def pyInt (s : String) : Option Int :=
  let t := (pyStrip s).data
  match t with
  | '-' :: rest => (digitsToNat rest).map (fun n => -(n : Int))
  | '+' :: rest => (digitsToNat rest).map (fun n => (n : Int))
  | rest => (digitsToNat rest).map (fun n => (n : Int))

/-- Python truthiness-driven `a or b` on optional strings (`""` is falsy). -/
def pyOrS (a b : Option String) : Option String :=
  match a with
  | some s => if s = "" then b else some s
  | none => b

/-- Python truthiness-driven `x or None` on optional ints (`0` is falsy). -/
def pyOrI (a : Option Int) : Option Int :=
  match a with
  | some n => if n = 0 then none else some n
  | none => none

def natToStrAux : Nat → Nat → List Char
  | 0, _ => []
  | fuel + 1, n =>
      if n < 10 then [Char.ofNat (n + 48)]
      else natToStrAux fuel (n / 10) ++ [Char.ofNat (n % 10 + 48)]

def natToStr (n : Nat) : String := ⟨natToStrAux (n + 1) n⟩

def intToStr (i : Int) : String :=
  if i < 0 then "-" ++ natToStr i.toNat else natToStr i.toNat

/-- Python `f"{n:02d}"` for the nonnegative values the engine formats. -/
def pad2 (i : Int) : String :=
  if 0 ≤ i ∧ i < 10 then "0" ++ intToStr i else intToStr i

/-- `strftime("%Y")`-style 4-digit year. -/
def pad4 (i : Int) : String :=
  if 0 ≤ i ∧ i < 10 then "000" ++ intToStr i
  else if i < 100 then "00" ++ intToStr i
  else if i < 1000 then "0" ++ intToStr i
  else intToStr i

/-! ## Dates (`datetime.date` and `timedelta`)

Proleptic Gregorian calendar dates, with day stepping for
`date ± timedelta(days=n)` and an ordinal for `(d2 - d1).days`.
-/

structure PyDate where
  year : Int
  month : Int
  day : Int
deriving DecidableEq, Repr

def isLeap (y : Int) : Bool :=
  (y % 4 = 0 ∧ y % 100 ≠ 0) ∨ y % 400 = 0

def daysInMonth (y m : Int) : Int :=
  if m = 2 then (if isLeap y then 29 else 28)
  else if m = 4 ∨ m = 6 ∨ m = 9 ∨ m = 11 then 30
  else 31

def ValidDate (d : PyDate) : Prop :=
  1 ≤ d.year ∧ 1 ≤ d.month ∧ d.month ≤ 12 ∧ 1 ≤ d.day ∧ d.day ≤ daysInMonth d.year d.month

instance (d : PyDate) : Decidable (ValidDate d) := by
  unfold ValidDate; infer_instance

def nextDay (d : PyDate) : PyDate :=
  if d.day < daysInMonth d.year d.month then ⟨d.year, d.month, d.day + 1⟩
  else if d.month < 12 then ⟨d.year, d.month + 1, 1⟩
  else ⟨d.year + 1, 1, 1⟩

def prevDay (d : PyDate) : PyDate :=
  if 1 < d.day then ⟨d.year, d.month, d.day - 1⟩
  else if 1 < d.month then ⟨d.year, d.month - 1, daysInMonth d.year (d.month - 1)⟩
  else ⟨d.year - 1, 12, 31⟩

/-- `d + timedelta(days=n)`. -/
def addDays : PyDate → Nat → PyDate
  | d, 0 => d
  | d, n + 1 => addDays (nextDay d) n

/-- `d - timedelta(days=n)`. -/
def subDays : PyDate → Nat → PyDate
  | d, 0 => d
  | d, n + 1 => subDays (prevDay d) n

/-- Chronological comparison (lexicographic on year, month, day). -/
def dateLE (a b : PyDate) : Bool :=
  if a.year ≠ b.year then a.year < b.year
  else if a.month ≠ b.month then a.month < b.month
  else a.day ≤ b.day

def daysBeforeYear (y : Int) : Int :=
  365 * (y - 1) + (y - 1) / 4 - (y - 1) / 100 + (y - 1) / 400

def daysBeforeMonth (y m : Int) : Int :=
  (if m = 1 then 0
   else if m = 2 then 31
   else if m = 3 then 59
   else if m = 4 then 90
   else if m = 5 then 120
   else if m = 6 then 151
   else if m = 7 then 181
   else if m = 8 then 212
   else if m = 9 then 243
   else if m = 10 then 273
   else if m = 11 then 304
   else 334)
  + (if 2 < m ∧ isLeap y then 1 else 0)

/-- `date.toordinal()`. -/
def toOrdinal (d : PyDate) : Int :=
  daysBeforeYear d.year + daysBeforeMonth d.year d.month + d.day

/-- `(a - b).days`. -/
def dateDiffDays (a b : PyDate) : Int := toOrdinal a - toOrdinal b

/-! ## Parsing helpers (`engine.py`) -/

def allDigits (l : List Char) : Bool := l.all Char.isDigit

/-- `_parse_date`: `datetime.strptime(s, "%Y-%m-%d").date()` with every
exception mapped to `None`.  Accepts `Y-M-D` with numeric fields (year at
most 4 digits, month/day at most 2) forming a real calendar date. -/
def parseDate (s : String) : Option PyDate :=
  match pySplit s '-' with
  | [ys, ms, ds] =>
      if allDigits ys.data ∧ allDigits ms.data ∧ allDigits ds.data ∧
         ys.data.length ≠ 0 ∧ ys.data.length ≤ 4 ∧
         ms.data.length ≠ 0 ∧ ms.data.length ≤ 2 ∧
         ds.data.length ≠ 0 ∧ ds.data.length ≤ 2 then
        match digitsToNat ys.data, digitsToNat ms.data, digitsToNat ds.data with
        | some y, some m, some d =>
            let dt : PyDate := ⟨(y : Int), (m : Int), (d : Int)⟩
            if ValidDate dt then some dt else none
        | _, _, _ => none
      else none
  | _ => none

/-- `_parse_time_minutes`: accepts `"14:30"`, `"14h30"`, `"14h"`,
`"14:30:00"`; returns minutes since midnight, `None` on anything else. -/
def parseTimeMinutes (t : Option String) : Option Int :=
  match t with
  | none => none
  | some t0 =>
    if t0 = "" then none
    else
      let s := pyReplaceChar (pyDropChar (pyLower (pyStrip t0)) ' ') 'h' ':'
      let s := if pyEndsWith s ':' then s ++ "00" else s
      match pySplit s ':' with
      | [] => none
      | [p0] =>
          match pyInt p0 with
          | none => none
          | some hh => if 0 ≤ hh ∧ hh ≤ 23 then some (hh * 60) else none
      | p0 :: p1 :: _ =>
          match pyInt p0 with
          | none => none
          | some hh =>
              match (if p1 = "" then some 0 else pyInt p1) with
              | none => none
              | some mm =>
                  if 0 ≤ hh ∧ hh ≤ 23 ∧ 0 ≤ mm ∧ mm ≤ 59 then some (hh * 60 + mm)
                  else none

/-- `_month_label`. -/
def monthLabel (y m : Int) : String := intToStr y ++ "-" ++ pad2 m

/-- `_quarter_label`. -/
def quarterLabel (y q : Int) : String := intToStr y ++ "-Q" ++ intToStr q

/-- `_group_label`: `(sort_key, label)` for a date under a grouping. -/
def groupLabel (d : PyDate) (group_by : String) : (Int × Int × Int) × String :=
  let gb := pyUpper group_by
  if gb = "DAY" then
    ((d.year, d.month, d.day), pad4 d.year ++ "-" ++ pad2 d.month ++ "-" ++ pad2 d.day)
  else if gb = "YEAR" then
    ((d.year, 0, 0), intToStr d.year)
  else if gb = "QUARTER" then
    let q := (d.month - 1) / 3 + 1
    ((d.year, q, 0), quarterLabel d.year q)
  else
    ((d.year, d.month, 0), monthLabel d.year d.month)

/-! ## Date presets (`_apply_preset`) -/

/-- End of the month containing day 1..28 of `(y, m)`, computed the way the
source does: `start.replace(day=28) + timedelta(days=4)` then subtract that
date's day-of-month. -/
def monthEndOf (y m : Int) : PyDate :=
  let next_month := addDays ⟨y, m, 28⟩ 4
  subDays next_month next_month.day.toNat

/-- `_apply_preset(preset, today)`: resolves a named preset to an inclusive
`(date_from, date_to)` pair; unrecognized names fall through to
`(today, today)`. -/
def applyPreset (preset : String) (t : PyDate) : PyDate × PyDate :=
  let p := pyStrip (pyUpper preset)
  if p = "TODAY" then (t, t)
  else if p = "YESTERDAY" then
    let y := subDays t 1
    (y, y)
  else if p = "THIS_MONTH" ∨ p = "MONTH_THIS" then
    (⟨t.year, t.month, 1⟩, monthEndOf t.year t.month)
  else if p = "PREV_MONTH" ∨ p = "MONTH_PREV" ∨ p = "LAST_MONTH" then
    let start_this : PyDate := ⟨t.year, t.month, 1⟩
    let end_prev := subDays start_this 1
    (⟨end_prev.year, end_prev.month, 1⟩, end_prev)
  else if p = "THIS_YEAR" ∨ p = "YEAR_THIS" then
    (⟨t.year, 1, 1⟩, ⟨t.year, 12, 31⟩)
  else if p = "PREV_YEAR" ∨ p = "YEAR_PREV" ∨ p = "LAST_YEAR" then
    (⟨t.year - 1, 1, 1⟩, ⟨t.year - 1, 12, 31⟩)
  else if p = "THIS_QUARTER" ∨ p = "QUARTER_THIS" then
    let q := (t.month - 1) / 3 + 1
    let start_month := (q - 1) * 3 + 1
    (⟨t.year, start_month, 1⟩, monthEndOf t.year (start_month + 2))
  else if p = "PREV_QUARTER" ∨ p = "QUARTER_PREV" ∨ p = "LAST_QUARTER" then
    let q := (t.month - 1) / 3 + 1
    let qy : Int × Int := if q - 1 ≤ 0 then (4, t.year - 1) else (q - 1, t.year)
    let start_month := (qy.1 - 1) * 3 + 1
    (⟨qy.2, start_month, 1⟩, monthEndOf qy.2 (start_month + 2))
  else (t, t)

/-! ## Filters (`StatsFilters`, `normalize_filters`) -/

structure StatsFilters where
  secteur : Option String := none
  atelier_id : Option Int := none
  date_from : Option PyDate := none
  date_to : Option PyDate := none
  preset : Option String := none
  group_by : String := "MONTH"
  periode_id : Option Int := none
deriving DecidableEq, Repr

/-- A stored `PeriodeFinancement` row (only the fields the engine reads). -/
structure PeriodeFinancement where
  id : Int
  date_debut : Option PyDate
  date_fin : Option PyDate
deriving DecidableEq, Repr

/-- The raw request-parameter mapping consumed by the dict branch of
`normalize_filters` (each key either absent or a string). -/
structure RawArgs where
  secteur : Option String := none
  sector : Option String := none
  atelier_id : Option String := none
  atelier : Option String := none
  date_from : Option String := none
  date_to : Option String := none
  preset : Option String := none
  group_by : Option String := none
  periode_id : Option String := none
  periode : Option String := none
deriving DecidableEq, Repr

/-- `int(v) if v not in (None, "", "None") else None`; `.error` models the
uncaught `ValueError` of `int(v)` on a non-numeric string. -/
def intIdOfArg (v : Option String) : Except String (Option Int) :=
  match v with
  | none => .ok none
  | some s =>
      if s = "" ∨ s = "None" then .ok none
      else
        match pyInt s with
        | some n => .ok (some n)
        | none => .error ("invalid literal for int: " ++ s)

/-- `normalize_filters(args, user=...)` (the dict-style call used by the
routes).  `periodes` stands for the `PeriodeFinancement` table and `today`
for `date.today()`.  A thrown `ValueError` becomes `.error`. -/
def normalizeFilters (periodes : List PeriodeFinancement) (args : RawArgs)
    (today : PyDate) : Except String StatsFilters := do
  let secteur := pyOrS args.secteur args.sector
  let atelier_id ← intIdOfArg (pyOrS args.atelier_id args.atelier)
  let periode_id ← intIdOfArg (pyOrS args.periode_id args.periode)
  let flt : StatsFilters :=
    { secteur := pyOrS secteur none
      atelier_id := pyOrI atelier_id
      preset := pyOrS args.preset none
      group_by := pyUpper ((pyOrS args.group_by none).getD "MONTH")
      periode_id := pyOrI periode_id }
  let df := match args.date_from with
    | some s => if s = "" then none else parseDate s
    | none => none
  let dt := match args.date_to with
    | some s => if s = "" then none else parseDate s
    | none => none
  let (df, dt) :=
    match flt.periode_id, df, dt with
    | some pid, none, none =>
        match periodes.find? (fun p => p.id = pid) with
        | some p => (p.date_debut, p.date_fin)
        | none => (none, none)
    | _, _, _ => (df, dt)
  let (df, dt) :=
    match flt.preset, df, dt with
    | some ps, none, none =>
        let r := applyPreset ps today
        (some r.1, some r.2)
    | _, _, _ => (df, dt)
  return { flt with date_from := df, date_to := dt }

/-! ## Data model (`app/models.py`, read-only fragment) -/

structure Atelier where
  id : Int
  secteur : String
  nom : String
  type_atelier : String := "COLLECTIF"
  capacite_defaut : Option Int := none
  duree_defaut_minutes : Option Int := none
  is_deleted : Bool := false
deriving DecidableEq, Repr

structure Session where
  id : Int
  atelier_id : Int
  secteur : String
  session_type : String := "COLLECTIF"
  date_session : Option PyDate := none
  heure_debut : Option String := none
  heure_fin : Option String := none
  capacite : Option Int := none
  statut : String := "realisee"
  rdv_date : Option PyDate := none
  rdv_debut : Option String := none
  rdv_fin : Option String := none
  is_deleted : Bool := false
deriving DecidableEq, Repr

structure Presence where
  id : Int
  session_id : Int
  participant_id : Int
deriving DecidableEq, Repr

/-- A participant row.  `age` stands for the derived `Participant.age`
property (years, from `date_naissance`, `none` when the birth date is
unset); `quartier_known` models `p.quartier is not None` and `is_qpv` the
neighborhood's priority flag (false when no neighborhood). -/
structure Participant where
  id : Int
  nom : Option String := none
  prenom : Option String := none
  age : Option Int := none
  genre : Option String := none
  ville : Option String := none
  quartier_known : Bool := false
  is_qpv : Bool := false
  type_public : Option String := none
deriving DecidableEq, Repr

/-- The relational store the engine queries. -/
structure DB where
  ateliers : List Atelier := []
  sessions : List Session := []
  presences : List Presence := []
  participants : List Participant := []
  periodes : List PeriodeFinancement := []
deriving DecidableEq, Repr

/-- `current_user` as the engine sees it: assigned sector (two legacy
attribute spellings) and permission codes answered by `has_perm`. -/
structure Actor where
  secteur_assigne : Option String := none
  secteur : Option String := none
  perms : List String := []
deriving DecidableEq, Repr

def hasPerm (u : Actor) (code : String) : Bool := u.perms.contains code

/-- `func.coalesce(SessionActivite.rdv_date, SessionActivite.date_session)`. -/
def sessionDateExpr (s : Session) : Option PyDate :=
  match s.rdv_date with
  | some d => some d
  | none => s.date_session

/-- `_session_duration_minutes(session, atelier)`. -/
def sessionDurationMinutes (s : Session) (a : Atelier) : Int :=
  let fallback : Int :=
    match a.duree_defaut_minutes with
    | some d => if d = 0 then 0 else d
    | none => 0
  let pair : Option String × Option String :=
    if pyUpper s.session_type = "COLLECTIF" then (s.heure_debut, s.heure_fin)
    else (s.rdv_debut, s.rdv_fin)
  match parseTimeMinutes pair.1, parseTimeMinutes pair.2 with
  | some st, some en => if st < en then en - st else fallback
  | _, _ => fallback

/-! ## Scope resolution and accessor (`engine.py`) -/

/-- The restricted-scope sentinel. -/
def RESTRICTED : String := "__restricted__"

/-- `_resolve_secteur_scope(flt)`: `none` = multi-sector access with no
sector filter requested; `some s` = restrict every query to sector `s`
(possibly the sentinel). -/
def resolveSecteurScope (u : Actor) (flt : StatsFilters) : Option String :=
  let user_sect := pyOrS u.secteur_assigne u.secteur
  let can_all := hasPerm u "scope:all_secteurs" ∨ hasPerm u "stats:view_all" ∨
    hasPerm u "statsimpact:view_all"
  if can_all then pyOrS flt.secteur none
  else
    match user_sect with
    | some s => some s
    | none => some RESTRICTED

/-- Inner join `SessionActivite × AtelierActivite` on `atelier_id` (atelier
ids are the primary key, looked up with `find?`). -/
def joinSessionsAteliers (db : DB) : List (Session × Atelier) :=
  db.sessions.filterMap (fun s =>
    (db.ateliers.find? (fun a => a.id = s.atelier_id)).map (fun a => (s, a)))

/-- The shared row filter of `_apply_common_filters` /
`_query_sessions_for_period`: soft-delete on both tables, effective-sector
restriction, optional single-workshop filter, inclusive date bounds on the
coalesced date (a row with no date is dropped by a SQL comparison with
`NULL`, hence excluded whenever a bound is set). -/
def rowMatches (eff : Option String) (atelier_id : Option Int)
    (dfrom dto : Option PyDate) (r : Session × Atelier) : Bool :=
  !r.1.is_deleted && !r.2.is_deleted &&
  (match eff with
   | some e => if e = "" then true else r.2.secteur == e
   | none => true) &&
  (match atelier_id with
   | some i => if i = 0 then true else r.2.id == i
   | none => true) &&
  (match dfrom with
   | some d => match sessionDateExpr r.1 with
     | some sd => dateLE d sd
     | none => false
   | none => true) &&
  (match dto with
   | some d => match sessionDateExpr r.1 with
     | some sd => dateLE sd d
     | none => false
   | none => true)

/-- `_query_sessions_for_period(flt, date_from, date_to).all()`. -/
def querySessionsForPeriod (db : DB) (u : Actor) (flt : StatsFilters)
    (dfrom dto : Option PyDate) : List (Session × Atelier) :=
  (joinSessionsAteliers db).filter
    (rowMatches (resolveSecteurScope u flt) flt.atelier_id dfrom dto)

/-- The `(sessions_rows, presences)` pair returned by
`_get_scoped_sessions_and_presences` (also the row set of
`_apply_common_filters` with the filter's own bounds). -/
def scopedSessions (db : DB) (u : Actor) (flt : StatsFilters) :
    List (Session × Atelier) :=
  querySessionsForPeriod db u flt flt.date_from flt.date_to

/-- Fetch of all presences whose `session_id` is in the given list. -/
def presencesForSessions (db : DB) (ids : List Int) : List Presence :=
  if ids = [] then [] else db.presences.filter (fun p => ids.contains p.session_id)

def scopedPresences (db : DB) (u : Actor) (flt : StatsFilters) : List Presence :=
  presencesForSessions db ((scopedSessions db u flt).map (fun r => r.1.id))

/-! ## Occupancy analyzer (`occupancy.py`) -/

/-- `DEFAULT_COLLECTIF_CAPACITY`. -/
def DEFAULT_COLLECTIF_CAPACITY : Int := 12

/-- The capacity fallback chain of `compute_occupancy_stats`:
explicit session capacity, else workshop default; a missing or non-positive
result falls to `DEFAULT_COLLECTIF_CAPACITY`. -/
def effectiveCapacity (s : Session) (a : Atelier) : Int :=
  let cap : Option Int :=
    match s.capacite with
    | some c => some c
    | none => a.capacite_defaut
  match cap with
  | none => DEFAULT_COLLECTIF_CAPACITY
  | some c => if c ≤ 0 then DEFAULT_COLLECTIF_CAPACITY else c

/-- The row set queried by `compute_occupancy_stats`.  Note that this query
is built directly from the raw filter: it never calls
`_resolve_secteur_scope`, and its sector filter reads
`SessionActivite.secteur`. -/
def occupancyRows (db : DB) (flt : StatsFilters) : List (Session × Atelier) :=
  (joinSessionsAteliers db).filter (fun r =>
    !r.1.is_deleted && !r.2.is_deleted &&
    (match flt.secteur with
     | some sec => if sec = "" then true else r.1.secteur == sec
     | none => true) &&
    (match flt.atelier_id with
     | some i => if i = 0 then true else r.1.atelier_id == i
     | none => true) &&
    (match flt.date_from with
     | some d => match sessionDateExpr r.1 with
       | some sd => dateLE d sd
       | none => false
     | none => true) &&
    (match flt.date_to with
     | some d => match sessionDateExpr r.1 with
       | some sd => dateLE sd d
       | none => false
     | none => true) &&
    r.1.session_type == "COLLECTIF")

/-- Round-half-to-even to an integer (Python `round` on the exact value). -/
def rhe (q : ℚ) : ℤ :=
  let f := ⌊q⌋
  let r := q - (f : ℚ)
  if r < 1 / 2 then f
  else if 1 / 2 < r then f + 1
  else if f % 2 = 0 then f else f + 1

/-- Python `round(q, n)` (on the exact rational value). -/
def roundTo (q : ℚ) (n : ℕ) : ℚ := (rhe (q * 10 ^ n) : ℚ) / 10 ^ n

structure OccupancyStats where
  collective_sessions : Int
  collective_presences : Int
  avg_fill_rate_pct : Option ℚ
  bucket_lt50 : Int
  bucket_50_79 : Int
  bucket_80_99 : Int
  bucket_100p : Int
  default_capacity : Option Int
deriving DecidableEq, Repr

/-- `compute_occupancy_stats(flt)` (aggregate fields; the `per_atelier`
breakdown, which no verified property mentions, is omitted).  The empty
result carries `avg_fill_rate_pct = None` and no `default_capacity` key,
exactly as the early return in the source. -/
def computeOccupancyStats (db : DB) (flt : StatsFilters) : OccupancyStats :=
  let rows := occupancyRows db flt
  if rows = [] then
    { collective_sessions := 0
      collective_presences := 0
      avg_fill_rate_pct := none
      bucket_lt50 := 0, bucket_50_79 := 0, bucket_80_99 := 0, bucket_100p := 0
      default_capacity := none }
  else
    let ids := rows.map (fun r => r.1.id)
    let pres := db.presences.filter (fun p => ids.contains p.session_id)
    let presBy : Int → Int := fun sid => pres.countP (fun p => p.session_id = sid)
    let total_presences := (pres.length : Int)
    -- the per-session loop: fill rate plus one bucket increment per session
    let acc := rows.foldl
      (fun (acc : List ℚ × Int × Int × Int × Int) r =>
        let (fill_rates, b1, b2, b3, b4) := acc
        let cap := effectiveCapacity r.1 r.2
        let rate : ℚ := if cap = 0 then 0 else (presBy r.1.id : ℚ) / (cap : ℚ)
        let pct := rate * 100
        let (b1, b2, b3, b4) :=
          if pct < 50 then (b1 + 1, b2, b3, b4)
          else if pct < 80 then (b1, b2 + 1, b3, b4)
          else if pct < 100 then (b1, b2, b3 + 1, b4)
          else (b1, b2, b3, b4 + 1)
        (fill_rates ++ [rate], b1, b2, b3, b4))
      ([], 0, 0, 0, 0)
    let fill_rates := acc.1
    let avg : ℚ :=
      if fill_rates.length = 0 then 0 else fill_rates.sum / (fill_rates.length : ℚ)
    { collective_sessions := (rows.length : Int)
      collective_presences := total_presences
      avg_fill_rate_pct := some (roundTo (avg * 100) 1)
      bucket_lt50 := acc.2.1
      bucket_50_79 := acc.2.2.1
      bucket_80_99 := acc.2.2.2.1
      bucket_100p := acc.2.2.2.2
      default_capacity := some DEFAULT_COLLECTIF_CAPACITY }

/-! ## Volume & activity analyzer (`compute_volume_activity_stats`) -/

/-- `(session.statut or "").lower() != "annulee"`. -/
def isRealSession (s : Session) : Bool := pyLower s.statut ≠ "annulee"

/-- `(session.session_type or "").upper() == "COLLECTIF"`. -/
def isCollectifSession (s : Session) : Bool := pyUpper s.session_type = "COLLECTIF"

/-- The capacity used by the volume analyzer:
`session.capacite if session.capacite is not None else
 (getattr(atelier, "capacite_defaut", 0) or 0)`, then `int(cap or 0)`. -/
def capVolume (s : Session) (a : Atelier) : Int :=
  match s.capacite with
  | some c => c
  | none =>
      match a.capacite_defaut with
      | some c => if c = 0 then 0 else c
      | none => 0

def dateMin2 (a b : PyDate) : PyDate := if dateLE a b then a else b

def dateMax2 (a b : PyDate) : PyDate := if dateLE a b then b else a

def dateMinOf : List PyDate → Option PyDate
  | [] => none
  | x :: xs => some (xs.foldl dateMin2 x)

def dateMaxOf : List PyDate → Option PyDate
  | [] => none
  | x :: xs => some (xs.foldl dateMax2 x)

/-- One entry of the `per_atelier` dict. -/
structure PerAcc where
  atelier_id : Int
  secteur : String
  nom : String
  type_atelier : String
  sessions_planned : Int := 0
  sessions_real : Int := 0
  planned_capacity : Int := 0
  real_capacity : Int := 0
  planned_hours : ℚ := 0
  real_hours : ℚ := 0
  sessions : Int := 0
  presences : Int := 0
  uniques : List Int := []
  hours_animator : ℚ := 0
  hours_people : ℚ := 0
  dates : List PyDate := []
deriving DecidableEq, Repr

def initAcc (a : Atelier) : PerAcc :=
  { atelier_id := a.id, secteur := a.secteur, nom := a.nom,
    type_atelier := a.type_atelier }

/-- Running state of the per-session loop: the two global hour counters and
the insertion-ordered `per_atelier` dict. -/
structure VolState where
  hours_animator : ℚ := 0
  hours_people : ℚ := 0
  per : List PerAcc := []
deriving DecidableEq, Repr

/-- The per-session hours contribution `h = mins / 60`. -/
def sessionHours (r : Session × Atelier) : ℚ :=
  ((sessionDurationMinutes r.1 r.2 : Int) : ℚ) / 60

/-- The per-session participant-hours contribution (`h × headcount` for
collective sessions, `h` once for attended individual sessions). -/
def sessionPeopleHours (presBy : Int → Int) (r : Session × Atelier) : ℚ :=
  if isCollectifSession r.1 then sessionHours r * ((presBy r.1.id : Int) : ℚ)
  else if 0 < presBy r.1.id then sessionHours r else 0

/-- The updates the per-session loop applies to the `per_atelier` entry of
the session's workshop.  A session whose derived duration is `≤ 0` hits the
`continue`: only the session counters and the date list are updated, and
neither hours nor capacity are accumulated. -/
def volUpdEntry (presBy : Int → Int) (r : Session × Atelier) (e : PerAcc) :
    PerAcc :=
  let s := r.1
  let is_real := isRealSession s
  let sd : Option PyDate :=
    match s.rdv_date with
    | some d => some d
    | none => s.date_session
  let mins := sessionDurationMinutes s r.2
  let e := { e with
    sessions := e.sessions + 1
    sessions_planned := e.sessions_planned + 1
    sessions_real := e.sessions_real + (if is_real then 1 else 0)
    dates := e.dates ++ (match sd with | some d => [d] | none => []) }
  if mins ≤ 0 then e
  else { e with
    hours_animator := e.hours_animator + sessionHours r
    planned_hours := e.planned_hours + sessionHours r
    real_hours := e.real_hours + (if is_real then sessionHours r else 0)
    hours_people := e.hours_people + sessionPeopleHours presBy r
    planned_capacity := e.planned_capacity + capVolume s r.2
    real_capacity := e.real_capacity + (if is_real then capVolume s r.2 else 0) }

/-- One iteration of the per-session loop of
`compute_volume_activity_stats`: create the workshop's entry on first
sight, then apply `volUpdEntry` to it and accumulate the global hour
counters. -/
def volSessionStep (presBy : Int → Int) (st : VolState) (r : Session × Atelier) :
    VolState :=
  let a := r.2
  let per0 := if st.per.any (fun e => e.atelier_id == a.id) then st.per
    else st.per ++ [initAcc a]
  let mins := sessionDurationMinutes r.1 a
  { hours_animator := st.hours_animator + (if mins ≤ 0 then 0 else sessionHours r)
    hours_people :=
      st.hours_people + (if mins ≤ 0 then 0 else sessionPeopleHours presBy r)
    per := per0.map (fun e =>
      if e.atelier_id == a.id then volUpdEntry presBy r e else e) }

/-- `{s.id: a.id for s, a in sessions_rows}`. -/
def sessionToAtelier (rows : List (Session × Atelier)) (sid : Int) : Option Int :=
  (rows.find? (fun r => r.1.id == sid)).map (fun r => r.2.id)

/-- One iteration of the per-presence loop (presence and unique counts per
workshop); `if not aid or aid not in per_atelier: continue`. -/
def volPresenceStep (rows : List (Session × Atelier)) (per : List PerAcc)
    (p : Presence) : List PerAcc :=
  match sessionToAtelier rows p.session_id with
  | none => per
  | some aid =>
      if aid = 0 then per
      else per.map (fun e =>
        if e.atelier_id == aid then
          { e with
            presences := e.presences + 1
            uniques := if e.uniques.contains p.participant_id then e.uniques
              else e.uniques ++ [p.participant_id] }
        else e)

/-- An entry of the `series` dict (label, sort key, counters). -/
structure TSEntry where
  label : String
  key : Int × Int × Int
  sessions : Int := 0
  presences : Int := 0
  uniques : List Int := []
deriving DecidableEq, Repr

def tsSessionStep (gb : String) (st : List TSEntry) (r : Session × Atelier) :
    List TSEntry :=
  let sd : Option PyDate :=
    match r.1.rdv_date with
    | some d => some d
    | none => r.1.date_session
  match sd with
  | none => st
  | some d =>
      let kl := groupLabel d gb
      let st := if st.any (fun e => e.label == kl.2) then st
        else st ++ [{ label := kl.2, key := kl.1 }]
      st.map (fun e => if e.label == kl.2 then { e with sessions := e.sessions + 1 } else e)

/-- `{s.id: d for sessions with a date}`. -/
def sessionDateMap (rows : List (Session × Atelier)) (sid : Int) : Option PyDate :=
  match rows.find? (fun r => r.1.id == sid) with
  | none => none
  | some r =>
      match r.1.rdv_date with
      | some d => some d
      | none => r.1.date_session

def tsPresenceStep (gb : String) (rows : List (Session × Atelier))
    (st : List TSEntry) (p : Presence) : List TSEntry :=
  match sessionDateMap rows p.session_id with
  | none => st
  | some d =>
      let kl := groupLabel d gb
      let st := if st.any (fun e => e.label == kl.2) then st
        else st ++ [{ label := kl.2, key := kl.1 }]
      st.map (fun e =>
        if e.label == kl.2 then
          { e with
            presences := e.presences + 1
            uniques := if e.uniques.contains p.participant_id then e.uniques
              else e.uniques ++ [p.participant_id] }
        else e)

/-- Lexicographic order on time-series sort keys. -/
def keyLE (a b : Int × Int × Int) : Bool :=
  if a.1 ≠ b.1 then a.1 < b.1
  else if a.2.1 ≠ b.2.1 then a.2.1 < b.2.1
  else a.2.2 ≤ b.2.2

structure TimePoint where
  label : String
  sessions : Int
  presences : Int
  uniques : Int
deriving DecidableEq, Repr

/-- One row of `table_ateliers`. -/
structure AtelierRow where
  atelier_id : Int
  secteur : String
  nom : String
  type_atelier : String
  sessions : Int
  presences : Int
  uniques : Int
  hours_animator : ℚ
  hours_people : ℚ
  is_new_vs_previous : Bool
  sessions_planned : Int
  sessions_real : Int
  planned_capacity : Int
  real_capacity : Int
  planned_hours : ℚ
  real_hours : ℚ
  occupation_rate : ℚ
  avg_per_session_real : ℚ
  activity_duration_days : Option Int
deriving DecidableEq, Repr

/-- Builds one `table_ateliers` row from a `per_atelier` entry. -/
def buildRow (prevIds : Option (List Int)) (e : PerAcc) : AtelierRow :=
  { atelier_id := e.atelier_id
    secteur := e.secteur
    nom := e.nom
    type_atelier := e.type_atelier
    sessions := e.sessions
    presences := e.presences
    uniques := (e.uniques.length : Int)
    hours_animator := roundTo e.hours_animator 2
    hours_people := roundTo e.hours_people 2
    is_new_vs_previous :=
      match prevIds with
      | some ids => !ids.contains e.atelier_id
      | none => false
    sessions_planned := e.sessions_planned
    sessions_real := e.sessions_real
    planned_capacity := e.planned_capacity
    real_capacity := e.real_capacity
    planned_hours := roundTo e.planned_hours 2
    real_hours := roundTo e.real_hours 2
    occupation_rate :=
      roundTo (if e.real_capacity = 0 then 0
               else (e.presences : ℚ) / (e.real_capacity : ℚ) * 100) 1
    avg_per_session_real :=
      roundTo (if e.sessions_real = 0 then 0
               else (e.presences : ℚ) / (e.sessions_real : ℚ)) 2
    activity_duration_days :=
      match dateMinOf e.dates, dateMaxOf e.dates with
      | some dmin, some dmax => some (dateDiffDays dmax dmin)
      | _, _ => none }

/-- Descending stable comparison used by `table_ateliers.sort(...,
reverse=True)` on the key `(presences, sessions)`. -/
def rowGE (a b : AtelierRow) : Bool :=
  if a.presences ≠ b.presences then b.presences < a.presences
  else b.sessions ≤ a.sessions

structure VolumeKpi where
  sessions : Int
  presences : Int
  uniques : Int
  new_participants : Int
  hours_animator : ℚ
  hours_people : ℚ
  avg_per_session : ℚ
  activity_duration_days : Option Int
deriving DecidableEq, Repr

structure VolumeStats where
  kpi : VolumeKpi
  time_series : List TimePoint
  table_ateliers : List AtelierRow
deriving DecidableEq, Repr

/-- The "first seen per participant" subquery: per participant attending a
non-soft-deleted session, the minimum coalesced session date (SQL `min`
ignores `NULL` dates). -/
def firstSeenDates (db : DB) : List (Int × Option PyDate) :=
  let joined := db.presences.filterMap (fun p =>
    (db.sessions.find? (fun s => s.id == p.session_id && !s.is_deleted)).map
      (fun s => (p.participant_id, sessionDateExpr s)))
  ((joined.map (fun q => q.1)).dedup).map (fun pid =>
    (pid, dateMinOf (joined.filterMap (fun q => if q.1 == pid then q.2 else none))))

/-- `new_participants`: participants whose first-ever attendance date falls
inside the requested window; computed (only when some bound is set) over the
whole store, with no sector or workshop restriction. -/
def computeNewParticipants (db : DB) (dfrom dto : Option PyDate) : Int :=
  if dfrom = none ∧ dto = none then 0
  else
    ((firstSeenDates db).countP (fun e =>
      (match dfrom with
       | some d => match e.2 with
         | some f => dateLE d f
         | none => false
       | none => true) &&
      (match dto with
       | some d => match e.2 with
         | some f => dateLE f d
         | none => false
       | none => true)) : Int)

/-- `compute_volume_activity_stats(flt)` (the `kpi`, `time_series` and
`table_ateliers` parts; heatmap, `top_ateliers`, `sectors_summary` and
`base_by_secteur`, which no verified property mentions, are omitted). -/
def computeVolumeActivityStats (db : DB) (u : Actor) (flt : StatsFilters) :
    VolumeStats :=
  let rows := querySessionsForPeriod db u flt flt.date_from flt.date_to
  let session_ids := rows.map (fun r => r.1.id)
  let prevIds : Option (List Int) :=
    match flt.date_from, flt.date_to with
    | some df, some dt =>
        if dateLE df dt then
          let span := dateDiffDays dt df + 1
          let prev_end := subDays df 1
          let prev_start := if 0 < span then subDays prev_end (span - 1).toNat
            else prev_end
          some ((querySessionsForPeriod db u flt (some prev_start)
            (some prev_end)).map (fun r => r.2.id))
        else none
    | _, _ => none
  let presences := presencesForSessions db session_ids
  let sessions_count := (rows.length : Int)
  let presences_total := (presences.length : Int)
  let uniques := ((presences.map (fun p => p.participant_id)).dedup.length : Int)
  let new_participants := computeNewParticipants db flt.date_from flt.date_to
  let presBy : Int → Int := fun sid => presences.countP (fun p => p.session_id = sid)
  let st := rows.foldl (volSessionStep presBy) {}
  let per := presences.foldl (volPresenceStep rows) st.per
  let activity_duration_days :=
    match dateMinOf (rows.filterMap (fun r =>
        match r.1.rdv_date with
        | some d => some d
        | none => r.1.date_session)),
      dateMaxOf (rows.filterMap (fun r =>
        match r.1.rdv_date with
        | some d => some d
        | none => r.1.date_session)) with
    | some dmin, some dmax => some (dateDiffDays dmax dmin)
    | _, _ => none
  let avg_per_session : ℚ :=
    if sessions_count = 0 then 0 else presences_total / (sessions_count : ℚ)
  let series0 := rows.foldl (tsSessionStep flt.group_by) []
  let series := presences.foldl (tsPresenceStep flt.group_by rows) series0
  let time_series := (series.insertionSort (fun e1 e2 => keyLE e1.key e2.key = true)).map
    (fun e => TimePoint.mk e.label e.sessions e.presences (e.uniques.length : Int))
  let table0 := per.map (buildRow prevIds)
  let table_ateliers := table0.insertionSort (fun r1 r2 => rowGE r1 r2 = true)
  { kpi :=
      { sessions := sessions_count
        presences := presences_total
        uniques := uniques
        new_participants := new_participants
        hours_animator := roundTo st.hours_animator 2
        hours_people := roundTo st.hours_people 2
        avg_per_session := roundTo avg_per_session 2
        activity_duration_days := activity_duration_days }
    time_series := time_series
    table_ateliers := table_ateliers }

/-! ## Frequency & retention analyzer (`compute_participation_frequency_stats`) -/

structure FreqStats where
  uniques : Int
  presences_total : Int
  freq_avg : ℚ
  returning : Int
  returning_rate : ℚ
  regulars_4plus : Int
  bucket_1 : Int
  bucket_2_3 : Int
  bucket_4_6 : Int
  bucket_7p : Int
deriving DecidableEq, Repr

/-- `Counter([p.participant_id for p in presences]).values()`: one visit
count per distinct participant. -/
def visitCounts (presences : List Presence) : List Int :=
  let pids := presences.map (fun p => p.participant_id)
  pids.dedup.map (fun pid => (pids.count pid : Int))

/-- One `if/elif` pass of the bucket loop. -/
def freqBucketStep (b : Int × Int × Int × Int) (n : Int) : Int × Int × Int × Int :=
  if n ≤ 1 then (b.1 + 1, b.2.1, b.2.2.1, b.2.2.2)
  else if 2 ≤ n ∧ n ≤ 3 then (b.1, b.2.1 + 1, b.2.2.1, b.2.2.2)
  else if 4 ≤ n ∧ n ≤ 6 then (b.1, b.2.1, b.2.2.1 + 1, b.2.2.2)
  else (b.1, b.2.1, b.2.2.1, b.2.2.2 + 1)

/-- The bucket loop of `compute_participation_frequency_stats`. -/
def freqBuckets (counts : List Int) : Int × Int × Int × Int :=
  counts.foldl freqBucketStep (0, 0, 0, 0)

/-- `compute_participation_frequency_stats(flt)`. -/
def computeParticipationFrequencyStats (db : DB) (u : Actor)
    (flt : StatsFilters) : FreqStats :=
  let presences := scopedPresences db u flt
  let counts := visitCounts presences
  let uniques := (counts.length : Int)
  let pres_total := counts.sum
  let freq_avg : ℚ := if uniques = 0 then 0 else (pres_total : ℚ) / (uniques : ℚ)
  let returning := (counts.countP (fun n => 2 ≤ n) : Int)
  let returning_rate : ℚ :=
    if uniques = 0 then 0 else (returning : ℚ) / (uniques : ℚ)
  let b := freqBuckets counts
  let regulars := (counts.countP (fun n => 4 ≤ n) : Int)
  { uniques := uniques
    presences_total := pres_total
    freq_avg := roundTo freq_avg 2
    returning := returning
    returning_rate := roundTo (returning_rate * 100) 1
    regulars_4plus := regulars
    bucket_1 := b.1
    bucket_2_3 := b.2.1
    bucket_4_6 := b.2.2.1
    bucket_7p := b.2.2.2 }

/-! ## Cross-sector (transversality) analyzer (`compute_transversalite_stats`) -/

structure TransStats where
  scope_secteur : Option String
  uniques : Int
  multi_count : Int
  multi_rate : ℚ
  top_cross : List (String × Int)
deriving DecidableEq, Repr

/-- The unrestricted cross-sector lookup: presence rows joined to their
(non-soft-deleted) session and workshop, keeping only the given
participants, date-bounded but *not* sector-scoped; yields
`(participant_id, secteur)` pairs. -/
def crossSectorRows (db : DB) (flt : StatsFilters) (pids : List Int) :
    List (Int × String) :=
  db.presences.filterMap (fun p =>
    if pids.contains p.participant_id then
      match db.sessions.find? (fun s => s.id == p.session_id && !s.is_deleted) with
      | some s =>
          match db.ateliers.find? (fun a => a.id == s.atelier_id && !a.is_deleted) with
          | some a =>
              if (match flt.date_from with
                  | some d => match sessionDateExpr s with
                    | some sd => dateLE d sd
                    | none => false
                  | none => true) &&
                 (match flt.date_to with
                  | some d => match sessionDateExpr s with
                    | some sd => dateLE sd d
                    | none => false
                  | none => true) then some (p.participant_id, a.secteur)
              else none
          | none => none
      | none => none
    else none)

/-- `secteurs_by_pid[pid]`: the distinct set of non-empty, stripped sector
strings the participant touched (first-occurrence order). -/
def secteursOfPid (rows : List (Int × String)) (pid : Int) : List String :=
  ((rows.filterMap (fun q =>
    if q.1 == pid then
      (if pyStrip q.2 = "" then none else some (pyStrip q.2))
    else none)).dedup)

/-- `compute_transversalite_stats(flt)`.  `top_cross` lists overlapping
sectors with shared-participant counts, sorted by count descending (ties in
first-encounter order, standing in for Python set/Counter iteration
order). -/
def computeTransversaliteStats (db : DB) (u : Actor) (flt : StatsFilters) :
    TransStats :=
  let presences := scopedPresences db u flt
  let scope_secteur := resolveSecteurScope u flt
  let scope_participants := (presences.map (fun p => p.participant_id)).dedup
  if scope_participants = [] then
    { scope_secteur := scope_secteur
      uniques := 0
      multi_count := 0
      multi_rate := 0
      top_cross := [] }
  else
    let rows := crossSectorRows db flt scope_participants
    let pidsWithSect := (rows.filterMap (fun q =>
      if pyStrip q.2 = "" then none else some q.1)).dedup
    let multi_count := (pidsWithSect.countP
      (fun pid => 2 ≤ (secteursOfPid rows pid).length) : Int)
    let uniques := (scope_participants.length : Int)
    let multi_rate : ℚ :=
      if uniques = 0 then 0 else (multi_count : ℚ) / (uniques : ℚ) * 100
    let cross_counts : List (String × Int) :=
      match scope_secteur with
      | none => []
      | some scope =>
          if scope = "" then []
          else
            let others := scope_participants.flatMap (fun pid =>
              let sset := secteursOfPid rows pid
              if sset.contains scope then sset.filter (fun o => o ≠ scope) else [])
            (others.dedup).map (fun o => (o, (others.count o : Int)))
    let top_cross := ((cross_counts.insertionSort
      (fun a b => b.2 ≤ a.2)).take 10)
    { scope_secteur := scope_secteur
      uniques := uniques
      multi_count := multi_count
      multi_rate := roundTo multi_rate 1
      top_cross := top_cross }

/-! ## Demographic analyzer (`compute_demography_stats`) -/

structure DemoStats where
  age_avg : Option ℚ
  age_0_10 : Int
  age_11_17 : Int
  age_18_25 : Int
  age_26_59 : Int
  age_60p : Int
  age_inconnu : Int
  genre : List (String × Int)
  villes_top : List (String × Int)
  creil : Int
  hors_creil : Int
  qpv : Int
  hors_qpv : Int
  qpv_inconnu : Int
  type_public : List (String × Int)
deriving DecidableEq, Repr

/-- `Counter(l)` as an insertion-ordered association list. -/
def counterOf (l : List String) : List (String × Int) :=
  (l.dedup).map (fun k => (k, (l.count k : Int)))

/-- `compute_demography_stats(flt)`. -/
def computeDemographyStats (db : DB) (u : Actor) (flt : StatsFilters) :
    DemoStats :=
  let presences := scopedPresences db u flt
  let pids := (presences.map (fun p => p.participant_id)).dedup
  if pids = [] then
    { age_avg := none
      age_0_10 := 0, age_11_17 := 0, age_18_25 := 0, age_26_59 := 0
      age_60p := 0, age_inconnu := 0
      genre := [], villes_top := []
      creil := 0, hors_creil := 0
      qpv := 0, hors_qpv := 0, qpv_inconnu := 0
      type_public := [] }
  else
    let parts := db.participants.filter (fun p => pids.contains p.id)
    let ages := parts.filterMap (fun p => p.age)
    let age_avg : Option ℚ :=
      if ages = [] then none
      else some (roundTo ((ages.sum : ℚ) / (ages.length : ℚ)) 1)
    let bucketOf : Option Int → Nat := fun a =>
      match a with
      | none => 5
      | some a =>
          if a ≤ 10 then 0 else if a ≤ 17 then 1 else if a ≤ 25 then 2
          else if a ≤ 59 then 3 else 4
    let countAge : Nat → Int := fun i => (parts.countP (fun p => bucketOf p.age = i) : Int)
    let genreKey : Participant → String := fun p =>
      let g := pyStrip (p.genre.getD "Inconnu")
      if g = "" then "Inconnu" else g
    let villeKey : Participant → String := fun p =>
      let v := pyStrip (p.ville.getD "Inconnue")
      if v = "" then "Inconnue" else v
    let isCreil : Participant → Bool := fun p =>
      pyLower (pyStrip (p.ville.getD "")) = "creil"
    let creil := (parts.countP isCreil : Int)
    let tpKey : Participant → String := fun p =>
      match p.type_public with
      | some t => if t = "" then "H" else t
      | none => "H"
    { age_avg := age_avg
      age_0_10 := countAge 0
      age_11_17 := countAge 1
      age_18_25 := countAge 2
      age_26_59 := countAge 3
      age_60p := countAge 4
      age_inconnu := countAge 5
      genre := counterOf (parts.map genreKey)
      villes_top := ((counterOf (parts.map villeKey)).insertionSort
        (fun a b => b.2 ≤ a.2)).take 10
      creil := creil
      hors_creil := (parts.length : Int) - creil
      qpv := (parts.countP (fun p => p.quartier_known && p.is_qpv) : Int)
      hors_qpv := (parts.countP (fun p => p.quartier_known && !p.is_qpv) : Int)
      qpv_inconnu := (parts.countP (fun p => !p.quartier_known) : Int)
      type_public := counterOf (parts.map tpKey) }

/-! ## Matrix builder (`compute_magatomatique`) and the route-side clamp -/

/-- Ascending order on optional session dates then ids, as in
`order_by(coalesce(rdv_date, date_session).asc(), SessionActivite.id.asc())`
(`NULL` dates first, as in SQLite). -/
def sessRowLE (r1 r2 : Session × Atelier) : Bool :=
  match sessionDateExpr r1.1, sessionDateExpr r2.1 with
  | none, none => r1.1.id ≤ r2.1.id
  | none, some _ => true
  | some _, none => false
  | some d1, some d2 =>
      if d1 = d2 then r1.1.id ≤ r2.1.id else dateLE d1 d2

/-- `lower(coalesce(f, "")) LIKE "%q%"`. -/
def likeContains (f : Option String) (q : String) : Bool :=
  decide (q.data <:+: (pyLower (f.getD "")).data)

def charListLE : List Char → List Char → Bool
  | [], _ => true
  | _ :: _, [] => false
  | a :: as, b :: bs => if a = b then charListLE as bs else a < b

/-- Ascending order on `(nom, prenom)` for the participant axis.  Character
order stands in for the SQL collation; only the selection and the cap are
relevant to the verified properties. -/
def participantLE (p1 p2 : Participant) : Bool :=
  let n1 := (p1.nom.getD "").data
  let n2 := (p2.nom.getD "").data
  if n1 = n2 then charListLE ((p1.prenom.getD "").data) ((p2.prenom.getD "").data)
  else charListLE n1 n2

/-- The result of `compute_magatomatique` (restricted flag, view, and the
two capped axes; macro aggregates and matrix cells, which no verified
property mentions, are omitted).  `sessions`/`participants` are `none` for
the views that do not return them. -/
structure MagatoResult where
  restricted : Bool
  view : String
  sessions : Option (List Int)
  participants : Option (List Int)
  max_sessions : Option Int
  max_participants : Option Int
deriving DecidableEq, Repr

/-- The view normalization of `compute_magatomatique`:
`(view or "macro").lower().strip()`, falling back to `"macro"` when not one
of the three known views. -/
def magatoView (view : Option String) : String :=
  let v0 := pyStrip (pyLower (view.getD "macro"))
  if v0 = "macro" ∨ v0 = "participants" ∨ v0 = "matrix" then v0 else "macro"

/-- `compute_magatomatique(flt, participant_q=..., view=..., max_sessions=...,
max_participants=...)`: the restricted-scope short-circuit, the view
normalization, and the two capped axes (session ids in chronological order,
participant ids in name order). -/
def computeMagatomatique (db : DB) (u : Actor) (flt : StatsFilters)
    (participant_q : Option String) (view : Option String)
    (max_sessions max_participants : Int) : MagatoResult :=
  let eff := resolveSecteurScope u flt
  if eff = some RESTRICTED then
    { restricted := true
      view := (view.getD "macro")
      sessions := none, participants := none
      max_sessions := none, max_participants := none }
  else
    let v := magatoView view
    if v = "macro" then
      { restricted := false, view := v
        sessions := none, participants := none
        max_sessions := none, max_participants := none }
    else
      let base := (joinSessionsAteliers db).filter
        (rowMatches eff flt.atelier_id flt.date_from flt.date_to)
      let sorted := base.insertionSort (fun r1 r2 => sessRowLE r1 r2 = true)
      let sessions :=
        if max_sessions ≠ 0 ∧ 0 < max_sessions then sorted.take max_sessions.toNat
        else sorted
      let session_ids := sessions.map (fun r => r.1.id)
      let inScope : Participant → Bool := fun p =>
        (joinSessionsAteliers db).any (fun r =>
          rowMatches eff flt.atelier_id flt.date_from flt.date_to r &&
          db.presences.any (fun pr =>
            pr.participant_id == p.id && pr.session_id == r.1.id))
      let filtered := db.participants.filter (fun p =>
        inScope p &&
        (match participant_q with
         | some q =>
             let pq := pyStrip q
             if pq = "" then true
             else likeContains p.nom (pyLower pq) || likeContains p.prenom (pyLower pq)
         | none => true))
      let sortedP := filtered.insertionSort (fun p1 p2 => participantLE p1 p2 = true)
      let parts :=
        if max_participants ≠ 0 ∧ 0 < max_participants then
          sortedP.take max_participants.toNat
        else sortedP
      { restricted := false, view := v
        sessions := some session_ids
        participants := some (parts.map (fun p => p.id))
        max_sessions := some max_sessions
        max_participants := some max_participants }

/-- `int(request.args.get("max_sessions") or default)` with the enclosing
`try/except` that falls back to the default. -/
def parseLimitArg (raw : Option String) (dflt : Int) : Int :=
  match raw with
  | none => dflt
  | some s => if s = "" then dflt else (pyInt s).getD dflt

/-- The dashboard's "bornes de sécurité":
`max_sessions = max(5, min(max_sessions, 200))`,
`max_participants = max(20, min(max_participants, 1000))`. -/
def clampLimits (ms mp : Int) : Int × Int :=
  (max 5 (min ms 200), max 20 (min mp 1000))

/-- The dashboard route's magatomatique call: parse the two limit
parameters, clamp them server-side, and invoke the builder. -/
def dashboardMagato (db : DB) (u : Actor) (flt : StatsFilters)
    (participant_q : Option String) (view : Option String)
    (raw_max_sessions raw_max_participants : Option String) : MagatoResult :=
  let ms := parseLimitArg raw_max_sessions 40
  let mp := parseLimitArg raw_max_participants 250
  let c := clampLimits ms mp
  computeMagatomatique db u flt participant_q view c.1 c.2

/-! ## General lemmas -/

theorem roundTo_zero (n : ℕ) : roundTo 0 n = 0 := by
  norm_num [roundTo, rhe]

theorem freqBuckets_go (l : List Int) (b : Int × Int × Int × Int) :
    (l.foldl freqBucketStep b).1 + (l.foldl freqBucketStep b).2.1 +
      (l.foldl freqBucketStep b).2.2.1 + (l.foldl freqBucketStep b).2.2.2 =
      b.1 + b.2.1 + b.2.2.1 + b.2.2.2 + l.length := by
  induction l generalizing b with
  | nil => simp
  | cons x xs ih =>
      simp only [List.foldl_cons, List.length_cons]
      rw [ih]
      unfold freqBucketStep
      split_ifs <;> push_cast <;> ring

/-! ## Claim theorems -/

/-- C9: over any store, actor and filtered window, the frequency analyzer's
four visit-count buckets partition the unique-participant set exactly
(their sum is `uniques`), `returning` counts the participants with at least
2 visits in the window, and `regulars_4plus` those with at least 4. -/
theorem frequency_buckets_partition (db : DB) (u : Actor) (flt : StatsFilters) :
    (computeParticipationFrequencyStats db u flt).bucket_1 +
      (computeParticipationFrequencyStats db u flt).bucket_2_3 +
      (computeParticipationFrequencyStats db u flt).bucket_4_6 +
      (computeParticipationFrequencyStats db u flt).bucket_7p =
      (computeParticipationFrequencyStats db u flt).uniques ∧
    (computeParticipationFrequencyStats db u flt).returning =
      ((((scopedPresences db u flt).map (fun p => p.participant_id)).dedup).countP
        (fun pid => 2 ≤ ((scopedPresences db u flt).map
          (fun p => p.participant_id)).count pid) : Int) ∧
    (computeParticipationFrequencyStats db u flt).regulars_4plus =
      ((((scopedPresences db u flt).map (fun p => p.participant_id)).dedup).countP
        (fun pid => 4 ≤ ((scopedPresences db u flt).map
          (fun p => p.participant_id)).count pid) : Int) := by
  simp only [computeParticipationFrequencyStats, freqBuckets]
  refine ⟨?_, ?_, ?_⟩
  · rw [freqBuckets_go]
    simp [visitCounts]
  · simp only [visitCounts, List.countP_map]
    congr 1
    apply List.countP_congr
    intro pid _
    simp only [Function.comp_apply, decide_eq_decide]
    exact_mod_cast Iff.rfl
  · simp only [visitCounts, List.countP_map]
    congr 1
    apply List.countP_congr
    intro pid _
    simp only [Function.comp_apply, decide_eq_decide]
    exact_mod_cast Iff.rfl

/-- The preset names (including aliases) recognized by `_apply_preset`. -/
def recognizedPresets : List String :=
  ["TODAY", "YESTERDAY", "THIS_MONTH", "MONTH_THIS", "PREV_MONTH",
   "MONTH_PREV", "LAST_MONTH", "THIS_YEAR", "YEAR_THIS", "PREV_YEAR",
   "YEAR_PREV", "LAST_YEAR", "THIS_QUARTER", "QUARTER_THIS",
   "PREV_QUARTER", "QUARTER_PREV", "LAST_QUARTER"]

theorem applyPreset_unrecognized (s : String) (t : PyDate)
    (h : pyStrip (pyUpper s) ∉ recognizedPresets) : applyPreset s t = (t, t) := by
  have h' : ∀ x, pyStrip (pyUpper s) = x → x ∈ recognizedPresets → False :=
    fun x e hx => h (e ▸ hx)
  have h1 : pyStrip (pyUpper s) ≠ "TODAY" := fun e => h' _ e (by decide)
  have h2 : pyStrip (pyUpper s) ≠ "YESTERDAY" := fun e => h' _ e (by decide)
  have h3 : pyStrip (pyUpper s) ≠ "THIS_MONTH" := fun e => h' _ e (by decide)
  have h4 : pyStrip (pyUpper s) ≠ "MONTH_THIS" := fun e => h' _ e (by decide)
  have h5 : pyStrip (pyUpper s) ≠ "PREV_MONTH" := fun e => h' _ e (by decide)
  have h6 : pyStrip (pyUpper s) ≠ "MONTH_PREV" := fun e => h' _ e (by decide)
  have h7 : pyStrip (pyUpper s) ≠ "LAST_MONTH" := fun e => h' _ e (by decide)
  have h8 : pyStrip (pyUpper s) ≠ "THIS_YEAR" := fun e => h' _ e (by decide)
  have h9 : pyStrip (pyUpper s) ≠ "YEAR_THIS" := fun e => h' _ e (by decide)
  have h10 : pyStrip (pyUpper s) ≠ "PREV_YEAR" := fun e => h' _ e (by decide)
  have h11 : pyStrip (pyUpper s) ≠ "YEAR_PREV" := fun e => h' _ e (by decide)
  have h12 : pyStrip (pyUpper s) ≠ "LAST_YEAR" := fun e => h' _ e (by decide)
  have h13 : pyStrip (pyUpper s) ≠ "THIS_QUARTER" := fun e => h' _ e (by decide)
  have h14 : pyStrip (pyUpper s) ≠ "QUARTER_THIS" := fun e => h' _ e (by decide)
  have h15 : pyStrip (pyUpper s) ≠ "PREV_QUARTER" := fun e => h' _ e (by decide)
  have h16 : pyStrip (pyUpper s) ≠ "QUARTER_PREV" := fun e => h' _ e (by decide)
  have h17 : pyStrip (pyUpper s) ≠ "LAST_QUARTER" := fun e => h' _ e (by decide)
  simp only [applyPreset, h1, h2, h3, h4, h5, h6, h7, h8, h9, h10, h11, h12,
    h13, h14, h15, h16, h17, false_or, or_false, or_self, if_false]

/-- C10: a non-empty preset string whose upper-cased, stripped form is none
of the recognized names resolves to the one-day window `(today, today)`,
and normalizing filters with such a preset and no explicit dates or stored
period yields exactly that one-day window. -/
theorem unrecognized_preset_one_day_window (periodes : List PeriodeFinancement)
    (args : RawArgs) (t : PyDate) (s : String)
    (hpre : args.preset = some s) (hne : s ≠ "")
    (hun : pyStrip (pyUpper s) ∉ recognizedPresets)
    (hdf : args.date_from = none) (hdt : args.date_to = none)
    (hpi : args.periode_id = none) (hp2 : args.periode = none)
    (ha1 : args.atelier_id = none) (ha2 : args.atelier = none) :
    applyPreset s t = (t, t) ∧
    ∃ flt, normalizeFilters periodes args t = .ok flt ∧
      flt.date_from = some t ∧ flt.date_to = some t := by
  refine ⟨applyPreset_unrecognized s t hun, ?_⟩
  obtain ⟨a1, a2, a3, a4, a5, a6, a7, a8, a9, a10⟩ := args
  simp only at hpre hdf hdt hpi hp2 ha1 ha2
  subst hpre hdf hdt hpi hp2 ha1 ha2
  refine ⟨{ secteur := pyOrS (pyOrS a1 a2) none
            atelier_id := none
            date_from := some t, date_to := some t
            preset := some s
            group_by := pyUpper ((pyOrS a8 none).getD "MONTH")
            periode_id := none }, ?_, rfl, rfl⟩
  simp only [normalizeFilters, intIdOfArg, pyOrI, bind, Except.bind, pure,
    Except.pure]
  simp only [pyOrS, hne, if_false, applyPreset_unrecognized s t hun]

theorem monthEndOf_eq (y m : Int) (h1 : 1 ≤ m) (h2 : m ≤ 12) :
    monthEndOf y m = ⟨y, m, daysInMonth y m⟩ := by
  interval_cases m
  · norm_num [monthEndOf, addDays, nextDay, subDays, prevDay, daysInMonth]
  · by_cases hl : isLeap y <;>
      norm_num [monthEndOf, addDays, nextDay, subDays, prevDay, daysInMonth, hl]
  · norm_num [monthEndOf, addDays, nextDay, subDays, prevDay, daysInMonth]
  · norm_num [monthEndOf, addDays, nextDay, subDays, prevDay, daysInMonth]
  · norm_num [monthEndOf, addDays, nextDay, subDays, prevDay, daysInMonth]
  · norm_num [monthEndOf, addDays, nextDay, subDays, prevDay, daysInMonth]
  · norm_num [monthEndOf, addDays, nextDay, subDays, prevDay, daysInMonth]
  · norm_num [monthEndOf, addDays, nextDay, subDays, prevDay, daysInMonth]
  · norm_num [monthEndOf, addDays, nextDay, subDays, prevDay, daysInMonth]
  · norm_num [monthEndOf, addDays, nextDay, subDays, prevDay, daysInMonth]
  · norm_num [monthEndOf, addDays, nextDay, subDays, prevDay, daysInMonth]
  · norm_num [monthEndOf, addDays, nextDay, subDays, prevDay, daysInMonth]

/-- C7: for every valid value of "today", resolving the `THIS_MONTH` preset
yields the first day of the current month as start and the last calendar
day of the current month as end (correct across 28-, 29-, 30- and 31-day
months including leap-year February, via the step-to-next-month-and-
subtract computation). -/
theorem this_month_preset_bounds (t : PyDate) (h : ValidDate t) :
    applyPreset "THIS_MONTH" t =
      (⟨t.year, t.month, 1⟩, ⟨t.year, t.month, daysInMonth t.year t.month⟩) := by
  obtain ⟨hy, hm1, hm2, _, _⟩ := h
  have hp : pyStrip (pyUpper "THIS_MONTH") = "THIS_MONTH" := by decide
  rw [applyPreset, hp]
  norm_num
  rw [if_neg (by decide : ¬("THIS_MONTH" : String) = "TODAY")]
  rw [if_neg (by decide : ¬("THIS_MONTH" : String) = "YESTERDAY")]
  exact congrArg (Prod.mk _) (monthEndOf_eq t.year t.month hm1 hm2)

/-- C10 witness: the unrecognized preset `"LAST_WEEK"` yields a one-day
window. -/
theorem unrecognized_preset_one_day_window_witness :
    pyStrip (pyUpper "LAST_WEEK") ∉ recognizedPresets ∧
    (applyPreset "LAST_WEEK" ⟨2024, 5, 17⟩ = (⟨2024, 5, 17⟩, ⟨2024, 5, 17⟩) ∧
     ∃ flt, normalizeFilters [] { preset := some "LAST_WEEK" } ⟨2024, 5, 17⟩ =
         .ok flt ∧
       flt.date_from = some ⟨2024, 5, 17⟩ ∧ flt.date_to = some ⟨2024, 5, 17⟩) :=
  ⟨by decide,
   unrecognized_preset_one_day_window [] { preset := some "LAST_WEEK" }
     ⟨2024, 5, 17⟩ "LAST_WEEK" rfl (by decide) (by decide) rfl rfl rfl rfl rfl rfl⟩

/-- C7 witness: a concrete leap-year February. -/
theorem this_month_preset_bounds_witness :
    ValidDate ⟨2024, 2, 10⟩ ∧
    applyPreset "THIS_MONTH" ⟨2024, 2, 10⟩ = (⟨2024, 2, 1⟩, ⟨2024, 2, 29⟩) := by
  refine ⟨by decide, ?_⟩
  rw [this_month_preset_bounds ⟨2024, 2, 10⟩ (by decide)]
  decide

/-- The time-of-day string pair a session's duration is derived from
(collective sessions use `heure_debut`/`heure_fin`, individual ones
`rdv_debut`/`rdv_fin`). -/
def sessionTimeFields (s : Session) : Option String × Option String :=
  if pyUpper s.session_type = "COLLECTIF" then (s.heure_debut, s.heure_fin)
  else (s.rdv_debut, s.rdv_fin)

/-- Modelled from claim C8 as stated: duration is `end − start` whenever
both time strings parse, else the workshop default when set, else 0. -/
def durationSpecClaim (s : Session) (a : Atelier) : Int :=
  match parseTimeMinutes (sessionTimeFields s).1,
        parseTimeMinutes (sessionTimeFields s).2 with
  | some st, some en => en - st
  | _, _ =>
      match a.duree_defaut_minutes with
      | some d => d
      | none => 0

/-- Modelled from the amended claim C8: duration is `end − start` whenever
both time strings parse *and* end is strictly after start; otherwise the
workshop's default duration when set and non-zero; otherwise 0. -/
def durationSpecAmended (s : Session) (a : Atelier) : Int :=
  let dflt : Int :=
    match a.duree_defaut_minutes with
    | some d => if d = 0 then 0 else d
    | none => 0
  match parseTimeMinutes (sessionTimeFields s).1,
        parseTimeMinutes (sessionTimeFields s).2 with
  | some st, some en => if st < en then en - st else dflt
  | _, _ => dflt

def c8Session : Session :=
  { id := 1, atelier_id := 1, secteur := "S", session_type := "COLLECTIF",
    heure_debut := some "14:00", heure_fin := some "13:00" }

def c8Atelier : Atelier :=
  { id := 1, secteur := "S", nom := "W", duree_defaut_minutes := some 60 }

/-- C8 counterexample: a collective session whose times both parse but with
end before start (`14:00` → `13:00`) and default duration 60: the code
returns the 60-minute fallback, while the claim as stated demands
`end − start = -60`. -/
theorem session_duration_claim_false :
    sessionDurationMinutes c8Session c8Atelier = 60 ∧
    durationSpecClaim c8Session c8Atelier = -60 ∧
    sessionDurationMinutes c8Session c8Atelier ≠
      durationSpecClaim c8Session c8Atelier := by
  refine ⟨by decide, by decide, by decide⟩

/-- C8 (amended): for every session and workshop, the derived duration is
`end − start` when both time strings parse and end is strictly after start,
otherwise the workshop's (non-zero) default duration, otherwise 0. -/
theorem session_duration_amended (s : Session) (a : Atelier) :
    sessionDurationMinutes s a = durationSpecAmended s a := rfl

/-- Modelled from claim C2 as stated: effective capacity is the session's
explicit capacity when set, else the workshop's default capacity when set,
else the fixed default constant. -/
def capacitySpecClaim (s : Session) (a : Atelier) : Int :=
  match s.capacite with
  | some c => c
  | none =>
      match a.capacite_defaut with
      | some c => c
      | none => DEFAULT_COLLECTIF_CAPACITY

/-- Modelled from the amended claim C2: effective capacity is the session's
explicit capacity when set and positive, else the workshop's default
capacity when set and positive, else the fixed default constant. -/
def capacitySpecAmended (s : Session) (a : Atelier) : Int :=
  match s.capacite with
  | some c => if 0 < c then c else DEFAULT_COLLECTIF_CAPACITY
  | none =>
      match a.capacite_defaut with
      | some c => if 0 < c then c else DEFAULT_COLLECTIF_CAPACITY
      | none => DEFAULT_COLLECTIF_CAPACITY

def c2Session : Session :=
  { id := 1, atelier_id := 1, secteur := "S", capacite := some 0 }

def c2Atelier : Atelier :=
  { id := 1, secteur := "S", nom := "W", capacite_defaut := some 7 }

/-- C2 counterexample: a session whose capacity is explicitly set to `0`
(workshop default 7): the code falls through to the fixed constant 12,
while the claim as stated demands the explicitly set value `0`. -/
theorem occupancy_capacity_claim_false :
    effectiveCapacity c2Session c2Atelier = 12 ∧
    capacitySpecClaim c2Session c2Atelier = 0 ∧
    effectiveCapacity c2Session c2Atelier ≠ capacitySpecClaim c2Session c2Atelier := by
  refine ⟨by decide, by decide, by decide⟩

/-- The two-session scenario of C2: collective workshop with default
capacity 10, two March sessions with capacities unset, 8 and 12
presences. -/
def c2Workshop : Atelier :=
  { id := 1, secteur := "S", nom := "W", type_atelier := "COLLECTIF",
    capacite_defaut := some 10 }

def c2Session1 : Session :=
  { id := 1, atelier_id := 1, secteur := "S", date_session := some ⟨2024, 3, 5⟩ }

def c2Session2 : Session :=
  { id := 2, atelier_id := 1, secteur := "S", date_session := some ⟨2024, 3, 12⟩ }

def c2db : DB :=
  { ateliers := [c2Workshop]
    sessions := [c2Session1, c2Session2]
    presences :=
      [⟨1, 1, 1⟩, ⟨2, 1, 2⟩, ⟨3, 1, 3⟩, ⟨4, 1, 4⟩, ⟨5, 1, 5⟩, ⟨6, 1, 6⟩,
       ⟨7, 1, 7⟩, ⟨8, 1, 8⟩,
       ⟨9, 2, 101⟩, ⟨10, 2, 102⟩, ⟨11, 2, 103⟩, ⟨12, 2, 104⟩, ⟨13, 2, 105⟩,
       ⟨14, 2, 106⟩, ⟨15, 2, 107⟩, ⟨16, 2, 108⟩, ⟨17, 2, 109⟩, ⟨18, 2, 110⟩,
       ⟨19, 2, 111⟩, ⟨20, 2, 112⟩] }

def c2flt : StatsFilters :=
  { date_from := some ⟨2024, 3, 1⟩, date_to := some ⟨2024, 3, 31⟩ }

/-- C2 (amended): the occupancy analyzer's effective capacity per session is
the session's explicit capacity when set and positive, else the workshop's
default capacity when set and positive, else the fixed constant 12, and the
fill rate is presences over that capacity; on the scenario (collective
workshop with default capacity 10, two sessions with capacities unset, 8
and 12 presences) the average fill rate is 100.0%, one session lands in the
80-99% bucket and one in the 100%+ bucket. -/
theorem occupancy_capacity_amended :
    (∀ s a, effectiveCapacity s a = capacitySpecAmended s a) ∧
    (computeOccupancyStats c2db c2flt).collective_sessions = 2 ∧
    (computeOccupancyStats c2db c2flt).collective_presences = 20 ∧
    (computeOccupancyStats c2db c2flt).avg_fill_rate_pct = some 100 ∧
    (computeOccupancyStats c2db c2flt).bucket_80_99 = 1 ∧
    (computeOccupancyStats c2db c2flt).bucket_100p = 1 := by
  have hrows : occupancyRows c2db c2flt =
      [(c2Session1, c2Workshop), (c2Session2, c2Workshop)] := by decide
  have hcap1 : effectiveCapacity c2Session1 c2Workshop = 10 := by decide
  have hcap2 : effectiveCapacity c2Session2 c2Workshop = 10 := by decide
  have hpres : c2db.presences.filter (fun p =>
      ([(c2Session1, c2Workshop), (c2Session2, c2Workshop)].map
        (fun r => r.1.id)).contains p.session_id) = c2db.presences := by decide
  have hlen : c2db.presences.length = 20 := by decide
  refine ⟨?_, ?_, ?_, ?_, ?_, ?_⟩
  · intro s a
    unfold effectiveCapacity capacitySpecAmended
    rcases s.capacite with _ | c
    · rcases a.capacite_defaut with _ | c
      · rfl
      · simp only
        split_ifs <;> first | rfl | omega
    · simp only
      split_ifs <;> first | rfl | omega
  all_goals
    simp only [computeOccupancyStats, hrows, hpres, hcap1, hcap2, hlen,
      List.foldl_cons, List.foldl_nil, List.map_cons, List.map_nil,
      List.length_cons, List.length_nil, List.sum_cons, List.sum_nil,
      reduceCtorEq, if_false, ite_false]
  all_goals norm_num [roundTo, rhe, c2db, c2Session1, c2Session2, c2Workshop,
    List.filter_cons, List.filter_nil, List.countP_cons, List.countP_nil]

/-- A raw id parameter that `normalize_filters` accepts without raising:
absent, one of the skipped literals, or a numeric string. -/
def idArgOk (v : Option String) : Prop :=
  match v with
  | none => True
  | some s => s = "" ∨ s = "None" ∨ (pyInt s).isSome

instance (v : Option String) : Decidable (idArgOk v) :=
  match v with
  | none => isTrue trivial
  | some s =>
      (inferInstance : Decidable (s = "" ∨ s = "None" ∨ (pyInt s).isSome = true))

theorem intIdOfArg_ok (v : Option String) (h : idArgOk v) :
    ∃ n, intIdOfArg v = .ok n := by
  rcases v with _ | s
  · exact ⟨none, rfl⟩
  · rcases h with h | h | h
    · exact ⟨none, by simp [intIdOfArg, h]⟩
    · exact ⟨none, by simp [intIdOfArg, h]⟩
    · rcases ho : pyInt s with _ | n
      · rw [ho] at h; simp at h
      · refine ⟨some n, ?_⟩
        by_cases he : s = "" ∨ s = "None"
        · exfalso
          rcases he with he | he <;> subst he <;>
            first
              | exact absurd ho (by decide)
              | (rw [(by decide : pyInt "" = none)] at ho; cases ho)
              | (rw [(by decide : pyInt "None" = none)] at ho; cases ho)
        · simp [intIdOfArg, he, ho]

/-- C6 counterexample: a non-numeric `atelier_id` makes `normalize_filters`
raise `ValueError` (modelled as `.error`) instead of treating the id as
absent. -/
theorem normalize_filters_raises_on_bad_id :
    normalizeFilters [] { atelier_id := some "abc" } ⟨2024, 1, 1⟩ =
      .error "invalid literal for int: abc" := rfl

/-- C6 (amended): filter normalization never raises on malformed dates or
times — malformed `YYYY-MM-DD` strings behave exactly as absent dates — but
a non-numeric workshop/period id *does* raise; whenever both id parameters
are absent or numeric, normalization returns a filter record. -/
theorem normalize_filters_amended (periodes : List PeriodeFinancement)
    (args : RawArgs) (t : PyDate)
    (ha : idArgOk (pyOrS args.atelier_id args.atelier))
    (hp : idArgOk (pyOrS args.periode_id args.periode)) :
    (∃ flt, normalizeFilters periodes args t = .ok flt) ∧
    (∀ sbad, parseDate sbad = none →
      normalizeFilters periodes { args with date_from := some sbad } t =
        normalizeFilters periodes { args with date_from := none } t) ∧
    (∀ sbad, parseDate sbad = none →
      normalizeFilters periodes { args with date_to := some sbad } t =
        normalizeFilters periodes { args with date_to := none } t) := by
  obtain ⟨n1, e1⟩ := intIdOfArg_ok _ ha
  obtain ⟨n2, e2⟩ := intIdOfArg_ok _ hp
  refine ⟨?_, ?_, ?_⟩
  · simp only [normalizeFilters, e1, e2, bind, Except.bind, pure, Except.pure]
    exact ⟨_, rfl⟩
  · intro sbad hbad
    simp only [normalizeFilters, e1, e2, bind, Except.bind, pure, Except.pure]
    by_cases hb : sbad = "" <;> simp [hb, hbad]
  · intro sbad hbad
    simp only [normalizeFilters, e1, e2, bind, Except.bind, pure, Except.pure]
    by_cases hb : sbad = "" <;> simp [hb, hbad]

/-- C6 witness: numeric id `"12"`, malformed date `"2024-13-99"`. -/
theorem normalize_filters_amended_witness :
    idArgOk (pyOrS (some "12") none) ∧ parseDate "2024-13-99" = none ∧
    normalizeFilters [] { atelier_id := some "12", date_from := some "2024-13-99" }
        ⟨2024, 1, 1⟩ =
      normalizeFilters [] { atelier_id := some "12", date_from := none }
        ⟨2024, 1, 1⟩ := by
  refine ⟨by decide, by decide, ?_⟩
  exact (normalize_filters_amended [] { atelier_id := some "12" } ⟨2024, 1, 1⟩
    (by decide) (by decide)).2.1 "2024-13-99" (by decide)

theorem magato_sessions_len (db : DB) (u : Actor) (flt : StatsFilters)
    (pq view : Option String) (ms mp : Int) (h0 : 0 < ms) :
    ∀ l, (computeMagatomatique db u flt pq view ms mp).sessions = some l →
      (l.length : Int) ≤ ms := by
  intro l hl
  unfold computeMagatomatique at hl
  by_cases h1 : resolveSecteurScope u flt = some RESTRICTED
  · simp [h1] at hl
  · by_cases h2 : magatoView view = "macro"
    · simp [h1, h2] at hl
    · simp only [h1, h2, if_false, ite_false, Option.some.injEq] at hl
      rw [if_pos (And.intro (by omega : ms ≠ 0) h0)] at hl
      subst hl
      rw [List.length_map, List.length_take]
      calc ((min ms.toNat _ : ℕ) : Int) ≤ (ms.toNat : Int) := by
            exact_mod_cast Nat.min_le_left _ _
        _ = ms := Int.toNat_of_nonneg (by omega)

theorem magato_participants_len (db : DB) (u : Actor) (flt : StatsFilters)
    (pq view : Option String) (ms mp : Int) (h0 : 0 < mp) :
    ∀ l, (computeMagatomatique db u flt pq view ms mp).participants = some l →
      (l.length : Int) ≤ mp := by
  intro l hl
  unfold computeMagatomatique at hl
  by_cases h1 : resolveSecteurScope u flt = some RESTRICTED
  · simp [h1] at hl
  · by_cases h2 : magatoView view = "macro"
    · simp [h1, h2] at hl
    · simp only [h1, h2, if_false, ite_false, Option.some.injEq] at hl
      rw [if_pos (And.intro (by omega : mp ≠ 0) h0)] at hl
      subst hl
      rw [List.length_map, List.length_take]
      calc ((min mp.toNat _ : ℕ) : Int) ≤ (mp.toNat : Int) := by
            exact_mod_cast Nat.min_le_left _ _
        _ = mp := Int.toNat_of_nonneg (by omega)

/-- C3 (amended): for every call through the dashboard route, the returned
session axis has at most `max(5, min(requested, 200))` entries and the
participant axis at most `max(20, min(requested, 1000))` entries — the
server clamps the requested limits into those bands (raising too-small
requests to the lower bound) and enforces the caps regardless of data
volume. -/
theorem magato_axes_bounded (db : DB) (u : Actor) (flt : StatsFilters)
    (pq view rms rmp : Option String) :
    (∀ l, (dashboardMagato db u flt pq view rms rmp).sessions = some l →
      (l.length : Int) ≤ max 5 (min (parseLimitArg rms 40) 200)) ∧
    (∀ l, (dashboardMagato db u flt pq view rms rmp).participants = some l →
      (l.length : Int) ≤ max 20 (min (parseLimitArg rmp 250) 1000)) := by
  constructor
  · intro l hl
    exact magato_sessions_len db u flt pq view _ _ (by positivity) l hl
  · intro l hl
    exact magato_participants_len db u flt pq view _ _ (by positivity) l hl

/-- The C3 counterexample store: five sessions in one workshop. -/
def c3db : DB :=
  { ateliers := [{ id := 1, secteur := "S", nom := "W" }]
    sessions :=
      [{ id := 1, atelier_id := 1, secteur := "S", date_session := some ⟨2024, 1, 1⟩ },
       { id := 2, atelier_id := 1, secteur := "S", date_session := some ⟨2024, 1, 2⟩ },
       { id := 3, atelier_id := 1, secteur := "S", date_session := some ⟨2024, 1, 3⟩ },
       { id := 4, atelier_id := 1, secteur := "S", date_session := some ⟨2024, 1, 4⟩ },
       { id := 5, atelier_id := 1, secteur := "S", date_session := some ⟨2024, 1, 5⟩ }] }

def c3u : Actor := { perms := ["scope:all_secteurs"] }

/-- C3 counterexample: requesting `max_sessions=2` (below the server's lower
clamp of 5) returns 5 session columns, exceeding `min(requested, cap) = 2`;
the claim as stated is false. -/
theorem magato_min_cap_claim_false :
    (dashboardMagato c3db c3u {} none (some "matrix") (some "2") none).sessions =
      some [1, 2, 3, 4, 5] ∧
    ¬((5 : Int) ≤ min 2 200) := by
  refine ⟨by decide, by decide⟩

/-- C3 witness: the amended bound, instantiated on the same store and
request, is met with equality at the clamped value 5. -/
theorem magato_axes_bounded_witness :
    (dashboardMagato c3db c3u {} none (some "matrix") (some "2") none).sessions =
      some [1, 2, 3, 4, 5] ∧
    ((5 : Int) ≤ max 5 (min (parseLimitArg (some "2") 40) 200)) := by
  refine ⟨by decide, ?_⟩
  have h := (magato_axes_bounded c3db c3u {} none (some "matrix")
    (some "2") none).1 [1, 2, 3, 4, 5] (by decide)
  exact le_trans (by norm_num) h

/-- The C1 failing input: one collective session with one presence in
sector "A", queried by an actor with no assigned sector and no
permission. -/
def c1db : DB :=
  { ateliers := [{ id := 1, secteur := "A", nom := "W" }]
    sessions :=
      [{ id := 1, atelier_id := 1, secteur := "A", date_session := some ⟨2024, 1, 10⟩ }]
    presences := [⟨1, 1, 42⟩] }

def c1u : Actor := {}

/-- C1 (code bug, evaluated at the failing input): the scope resolver does
yield the restricted sentinel and the matrix builder does short-circuit,
and the volume analyzer's results are empty (though reached by filtering on
the sentinel, not by short-circuiting) — but `compute_occupancy_stats`
never consults the scope resolver, so the restricted actor receives the
full occupancy statistics (1 collective session, 1 presence) instead of
zero/empty results. -/
theorem restricted_scope_not_enforced_by_occupancy :
    resolveSecteurScope c1u {} = some RESTRICTED ∧
    (computeMagatomatique c1db c1u {} none none 40 250).restricted = true ∧
    (computeVolumeActivityStats c1db c1u {}).kpi.sessions = 0 ∧
    (computeOccupancyStats c1db {}).collective_sessions = 1 ∧
    (computeOccupancyStats c1db {}).collective_presences = 1 := by
  refine ⟨by decide, by decide, by decide, by decide, by decide⟩

/-- The C5 counterexample store: the window and the data exist, but the
requested sector filter matches no session. -/
def c5db : DB :=
  { ateliers := [{ id := 1, secteur := "Y", nom := "W" }]
    sessions :=
      [{ id := 1, atelier_id := 1, secteur := "Y", date_session := some ⟨2024, 3, 5⟩ }]
    presences := [⟨1, 1, 7⟩] }

def c5u : Actor := { perms := ["stats:view_all"] }

def c5flt : StatsFilters :=
  { secteur := some "X", date_from := some ⟨2024, 3, 1⟩, date_to := some ⟨2024, 3, 31⟩ }

/-- C5 counterexample: a filter matching no sessions (sector "X" while all
data is in sector "Y") still yields `new_participants = 1`, because the
"first seen" aggregation runs over the whole store with only the date
bounds applied; the claim that *every* aggregate is zero is false. -/
theorem empty_filter_zero_aggregates_claim_false :
    scopedSessions c5db c5u c5flt = [] ∧
    (computeVolumeActivityStats c5db c5u c5flt).kpi.sessions = 0 ∧
    (computeVolumeActivityStats c5db c5u c5flt).time_series = [] ∧
    (computeVolumeActivityStats c5db c5u c5flt).table_ateliers = [] ∧
    (computeVolumeActivityStats c5db c5u c5flt).kpi.new_participants = 1 := by
  refine ⟨by decide, by decide, by decide, by decide, by decide⟩

/-- C5 (amended): when the filter matches no sessions (for both the shared
accessor and the occupancy analyzer's own query), every analyzer returns
without error: the volume analyzer's aggregates are all zero — with the
sole exception of `new_participants`, which is computed over the whole
store and is not constrained by this hypothesis — `time_series` and
`table_ateliers` are empty, the frequency analyzer is all-zero, occupancy
reports zero counts with an absent average fill rate, transversality and
demography report zero/empty distributions, and every empty-denominator
division (average per session, average visits, returning rate, fill rate)
short-circuits to 0 or an absent value instead of raising. -/
theorem empty_filter_zero_aggregates_amended (db : DB) (u : Actor)
    (flt : StatsFilters)
    (h1 : scopedSessions db u flt = [])
    (h2 : occupancyRows db flt = []) :
    ((computeVolumeActivityStats db u flt).kpi.sessions = 0 ∧
     (computeVolumeActivityStats db u flt).kpi.presences = 0 ∧
     (computeVolumeActivityStats db u flt).kpi.uniques = 0 ∧
     (computeVolumeActivityStats db u flt).kpi.hours_animator = 0 ∧
     (computeVolumeActivityStats db u flt).kpi.hours_people = 0 ∧
     (computeVolumeActivityStats db u flt).kpi.avg_per_session = 0 ∧
     (computeVolumeActivityStats db u flt).kpi.activity_duration_days = none ∧
     (computeVolumeActivityStats db u flt).time_series = [] ∧
     (computeVolumeActivityStats db u flt).table_ateliers = []) ∧
    ((computeParticipationFrequencyStats db u flt).uniques = 0 ∧
     (computeParticipationFrequencyStats db u flt).presences_total = 0 ∧
     (computeParticipationFrequencyStats db u flt).freq_avg = 0 ∧
     (computeParticipationFrequencyStats db u flt).returning = 0 ∧
     (computeParticipationFrequencyStats db u flt).returning_rate = 0 ∧
     (computeParticipationFrequencyStats db u flt).regulars_4plus = 0 ∧
     (computeParticipationFrequencyStats db u flt).bucket_1 = 0 ∧
     (computeParticipationFrequencyStats db u flt).bucket_2_3 = 0 ∧
     (computeParticipationFrequencyStats db u flt).bucket_4_6 = 0 ∧
     (computeParticipationFrequencyStats db u flt).bucket_7p = 0) ∧
    computeOccupancyStats db flt =
      { collective_sessions := 0, collective_presences := 0
        avg_fill_rate_pct := none
        bucket_lt50 := 0, bucket_50_79 := 0, bucket_80_99 := 0, bucket_100p := 0
        default_capacity := none } ∧
    ((computeTransversaliteStats db u flt).uniques = 0 ∧
     (computeTransversaliteStats db u flt).multi_count = 0 ∧
     (computeTransversaliteStats db u flt).multi_rate = 0 ∧
     (computeTransversaliteStats db u flt).top_cross = []) ∧
    computeDemographyStats db u flt =
      { age_avg := none
        age_0_10 := 0, age_11_17 := 0, age_18_25 := 0, age_26_59 := 0
        age_60p := 0, age_inconnu := 0
        genre := [], villes_top := []
        creil := 0, hors_creil := 0
        qpv := 0, hors_qpv := 0, qpv_inconnu := 0
        type_public := [] } := by
  have hq : querySessionsForPeriod db u flt flt.date_from flt.date_to = [] := h1
  have hps : scopedPresences db u flt = [] := by
    simp [scopedPresences, scopedSessions, hq, presencesForSessions]
  refine ⟨?_, ?_, ?_, ?_, ?_⟩
  · refine ⟨?_, ?_, ?_, ?_, ?_, ?_, ?_, ?_, ?_⟩ <;>
      simp [computeVolumeActivityStats, hq, presencesForSessions, dateMinOf,
        dateMaxOf, roundTo_zero, VolState.per, List.insertionSort]
  · refine ⟨?_, ?_, ?_, ?_, ?_, ?_, ?_, ?_, ?_, ?_⟩ <;>
      simp [computeParticipationFrequencyStats, hps, visitCounts, freqBuckets,
        roundTo_zero]
  · simp [computeOccupancyStats, h2]
  · refine ⟨?_, ?_, ?_, ?_⟩ <;>
      simp [computeTransversaliteStats, hps, roundTo_zero]
  · simp [computeDemographyStats, hps]

/-- C5 witness: the empty store trivially matches no sessions. -/
theorem empty_filter_zero_aggregates_amended_witness :
    scopedSessions {} {} {} = [] ∧ occupancyRows {} {} = [] ∧
    computeOccupancyStats {} {} =
      { collective_sessions := 0, collective_presences := 0
        avg_fill_rate_pct := none
        bucket_lt50 := 0, bucket_50_79 := 0, bucket_80_99 := 0, bucket_100p := 0
        default_capacity := none } := by
  refine ⟨by decide, by decide, ?_⟩
  exact (empty_filter_zero_aggregates_amended {} {} {} (by decide)
    (by decide)).2.2.1

/-! ## C4: capacity rollup in the volume analyzer -/

/-- The sum, over a workshop's window sessions whose derived duration is
positive, of the volume analyzer's effective capacity. -/
def plannedCapSum (rows : List (Session × Atelier)) (aid : Int) : Int :=
  ((rows.filter (fun r =>
    r.2.id = aid ∧ 0 < sessionDurationMinutes r.1 r.2)).map
      (fun r => capVolume r.1 r.2)).sum

/-- As `plannedCapSum`, restricted to non-cancelled sessions. -/
def realCapSum (rows : List (Session × Atelier)) (aid : Int) : Int :=
  ((rows.filter (fun r =>
    r.2.id = aid ∧ 0 < sessionDurationMinutes r.1 r.2 ∧
    isRealSession r.1)).map (fun r => capVolume r.1 r.2)).sum

/-- Modelled from claim C4 as stated: the capacity sum over *all* of the
workshop's window sessions, with no condition on the derived duration. -/
def plannedCapSumClaim (rows : List (Session × Atelier)) (aid : Int) : Int :=
  ((rows.filter (fun r => r.2.id = aid)).map (fun r => capVolume r.1 r.2)).sum

theorem plannedCapSum_cons (r : Session × Atelier)
    (l : List (Session × Atelier)) (aid : Int) :
    plannedCapSum (r :: l) aid =
      (if r.2.id = aid ∧ 0 < sessionDurationMinutes r.1 r.2
       then capVolume r.1 r.2 else 0) + plannedCapSum l aid := by
  by_cases h : r.2.id = aid ∧ 0 < sessionDurationMinutes r.1 r.2 <;>
    simp [plannedCapSum, List.filter_cons, h]

theorem realCapSum_cons (r : Session × Atelier)
    (l : List (Session × Atelier)) (aid : Int) :
    realCapSum (r :: l) aid =
      (if r.2.id = aid ∧ 0 < sessionDurationMinutes r.1 r.2 ∧ isRealSession r.1
       then capVolume r.1 r.2 else 0) + realCapSum l aid := by
  by_cases h : r.2.id = aid ∧ 0 < sessionDurationMinutes r.1 r.2 ∧
      isRealSession r.1 <;>
    simp [realCapSum, List.filter_cons, h]

theorem volUpdEntry_atelier_id (presBy : Int → Int) (r : Session × Atelier)
    (e : PerAcc) : (volUpdEntry presBy r e).atelier_id = e.atelier_id := by
  simp only [volUpdEntry]
  split_ifs <;> rfl

theorem volUpdEntry_planned (presBy : Int → Int) (r : Session × Atelier)
    (e : PerAcc) :
    (volUpdEntry presBy r e).planned_capacity = e.planned_capacity +
      (if 0 < sessionDurationMinutes r.1 r.2 then capVolume r.1 r.2 else 0) := by
  simp only [volUpdEntry]
  rw [apply_ite (fun x : PerAcc => x.planned_capacity)]
  by_cases h : sessionDurationMinutes r.1 r.2 ≤ 0
  · simp [h, show ¬ 0 < sessionDurationMinutes r.1 r.2 by omega]
  · simp [h, show 0 < sessionDurationMinutes r.1 r.2 by omega]

theorem volUpdEntry_real (presBy : Int → Int) (r : Session × Atelier)
    (e : PerAcc) :
    (volUpdEntry presBy r e).real_capacity = e.real_capacity +
      (if 0 < sessionDurationMinutes r.1 r.2 ∧ isRealSession r.1
       then capVolume r.1 r.2 else 0) := by
  simp only [volUpdEntry]
  rw [apply_ite (fun x : PerAcc => x.real_capacity)]
  by_cases h : sessionDurationMinutes r.1 r.2 ≤ 0
  · simp [h, show ¬ 0 < sessionDurationMinutes r.1 r.2 by omega]
  · by_cases hr : isRealSession r.1 <;>
      simp [h, hr, show 0 < sessionDurationMinutes r.1 r.2 by omega]

/-- Invariant of the per-session loop: every `per_atelier` entry carries,
for its workshop, the capacity sums (restricted to sessions with positive
derived duration) accumulated over the processed rows — on top of whatever
an entry already present at the start carried. -/
theorem volSessionFold_caps (presBy : Int → Int)
    (l : List (Session × Atelier)) :
    ∀ st : VolState, ∀ e ∈ (l.foldl (volSessionStep presBy) st).per,
      (∃ e0, e0 ∈ st.per ∧ e0.atelier_id = e.atelier_id ∧
        e.planned_capacity = e0.planned_capacity + plannedCapSum l e.atelier_id ∧
        e.real_capacity = e0.real_capacity + realCapSum l e.atelier_id) ∨
      ((∀ e0 ∈ st.per, e0.atelier_id ≠ e.atelier_id) ∧
        e.planned_capacity = plannedCapSum l e.atelier_id ∧
        e.real_capacity = realCapSum l e.atelier_id) := by
  induction l with
  | nil =>
      intro st e he
      exact Or.inl ⟨e, he, rfl, by simp [plannedCapSum], by simp [realCapSum]⟩
  | cons r rest ih =>
      intro st e he
      rw [List.foldl_cons] at he
      have H := ih (volSessionStep presBy st r) e he
      have hper : (volSessionStep presBy st r).per =
          (if st.per.any (fun x => x.atelier_id == r.2.id) then st.per
           else st.per ++ [initAcc r.2]).map
            (fun x => if x.atelier_id == r.2.id then volUpdEntry presBy r x
             else x) := rfl
      have hfA : ∀ x : PerAcc,
          (if x.atelier_id == r.2.id then volUpdEntry presBy r x
           else x).atelier_id = x.atelier_id := by
        intro x
        split_ifs <;> simp [volUpdEntry_atelier_id]
      have hfB : ∀ x : PerAcc,
          (if x.atelier_id == r.2.id then volUpdEntry presBy r x
           else x).planned_capacity = x.planned_capacity +
            (if r.2.id = x.atelier_id ∧ 0 < sessionDurationMinutes r.1 r.2
             then capVolume r.1 r.2 else 0) := by
        intro x
        by_cases hx : x.atelier_id = r.2.id
        · rw [if_pos (by simp [hx]), volUpdEntry_planned]
          simp [hx]
        · rw [if_neg (by simp [hx])]
          simp [show ¬(r.2.id = x.atelier_id ∧
              0 < sessionDurationMinutes r.1 r.2) from
            fun hcon => hx hcon.1.symm]
      have hfC : ∀ x : PerAcc,
          (if x.atelier_id == r.2.id then volUpdEntry presBy r x
           else x).real_capacity = x.real_capacity +
            (if r.2.id = x.atelier_id ∧ 0 < sessionDurationMinutes r.1 r.2 ∧
                isRealSession r.1
             then capVolume r.1 r.2 else 0) := by
        intro x
        by_cases hx : x.atelier_id = r.2.id
        · rw [if_pos (by simp [hx]), volUpdEntry_real]
          simp [hx]
        · rw [if_neg (by simp [hx])]
          simp [show ¬(r.2.id = x.atelier_id ∧
              0 < sessionDurationMinutes r.1 r.2 ∧ isRealSession r.1) from
            fun hcon => hx hcon.1.symm]
      rcases H with ⟨e1, he1, haid, hpl, hre⟩ | ⟨hnone, hpl, hre⟩
      · -- the entry already existed after processing `r`
        rw [hper] at he1
        obtain ⟨x, hx, hfx⟩ := List.mem_map.mp he1
        have hxaid : x.atelier_id = e.atelier_id := by
          rw [← haid, ← hfx]
          exact (hfA x).symm
        by_cases hc : st.per.any (fun y => y.atelier_id == r.2.id)
        · rw [if_pos hc] at hx
          refine Or.inl ⟨x, hx, hxaid, ?_, ?_⟩
          · rw [hpl, ← hfx, hfB x, plannedCapSum_cons, hxaid]
            ring
          · rw [hre, ← hfx, hfC x, realCapSum_cons, hxaid]
            ring
        · rw [if_neg hc] at hx
          rcases List.mem_append.mp hx with hx' | hx'
          · refine Or.inl ⟨x, hx', hxaid, ?_, ?_⟩
            · rw [hpl, ← hfx, hfB x, plannedCapSum_cons, hxaid]
              ring
            · rw [hre, ← hfx, hfC x, realCapSum_cons, hxaid]
              ring
          · -- the entry was created while processing `r`
            have hxinit : x = initAcc r.2 := List.mem_singleton.mp hx'
            have haide : e.atelier_id = r.2.id := by
              rw [← hxaid, hxinit]; rfl
            refine Or.inr ⟨?_, ?_, ?_⟩
            · intro e0 he0 habs
              apply hc
              exact List.any_eq_true.mpr ⟨e0, he0, by simp [habs, haide]⟩
            · rw [hpl, ← hfx, hfB x, hxinit, plannedCapSum_cons, haide]
              simp [initAcc]
            · rw [hre, ← hfx, hfC x, hxinit, realCapSum_cons, haide]
              simp [initAcc]
      · -- no entry for this workshop after processing `r` either
        have hstep : ∀ x ∈ st.per, x.atelier_id ≠ e.atelier_id := by
          intro x hx
          have hmem : (if x.atelier_id == r.2.id then volUpdEntry presBy r x
              else x) ∈ (volSessionStep presBy st r).per := by
            rw [hper]
            refine List.mem_map_of_mem _ ?_
            split_ifs with hc
            · exact hx
            · exact List.mem_append.mpr (Or.inl hx)
          have := hnone _ hmem
          rw [hfA x] at this
          exact this
        have hrne : r.2.id ≠ e.atelier_id := by
          by_cases hc : st.per.any (fun y => y.atelier_id == r.2.id)
          · obtain ⟨y, hy, hyaid⟩ := List.any_eq_true.mp hc
            have : y.atelier_id = r.2.id := by simpa using hyaid
            rw [← this]
            exact hstep y hy
          · have hmem : (if (initAcc r.2).atelier_id == r.2.id then
                volUpdEntry presBy r (initAcc r.2)
                else initAcc r.2) ∈ (volSessionStep presBy st r).per := by
              rw [hper, if_neg hc]
              exact List.mem_map_of_mem _
                (List.mem_append.mpr (Or.inr (List.mem_singleton.mpr rfl)))
            have := hnone _ hmem
            rw [hfA (initAcc r.2)] at this
            exact this
        refine Or.inr ⟨hstep, ?_, ?_⟩
        · rw [hpl, plannedCapSum_cons]
          simp [show ¬(r.2.id = e.atelier_id ∧
              0 < sessionDurationMinutes r.1 r.2) from fun hcon => hrne hcon.1]
        · rw [hre, realCapSum_cons]
          simp [show ¬(r.2.id = e.atelier_id ∧
              0 < sessionDurationMinutes r.1 r.2 ∧ isRealSession r.1) from
            fun hcon => hrne hcon.1]

/-- The per-presence loop touches only presence/unique counters: workshop
id and both capacity fields of every entry are preserved. -/
theorem volPresenceFold_caps (rows : List (Session × Atelier))
    (ps : List Presence) :
    ∀ per : List PerAcc, ∀ e ∈ ps.foldl (volPresenceStep rows) per,
      ∃ e0, e0 ∈ per ∧ e0.atelier_id = e.atelier_id ∧
        e0.planned_capacity = e.planned_capacity ∧
        e0.real_capacity = e.real_capacity := by
  induction ps with
  | nil =>
      intro per e he
      exact ⟨e, he, rfl, rfl, rfl⟩
  | cons p ps ih =>
      intro per e he
      rw [List.foldl_cons] at he
      obtain ⟨e1, he1, ha, hp, hr⟩ := ih _ e he
      unfold volPresenceStep at he1
      rcases hm : sessionToAtelier rows p.session_id with _ | aid
      · rw [hm] at he1
        exact ⟨e1, he1, ha, hp, hr⟩
      · rw [hm] at he1
        dsimp only at he1
        by_cases hz : aid = 0
        · rw [if_pos hz] at he1
          exact ⟨e1, he1, ha, hp, hr⟩
        · rw [if_neg hz] at he1
          obtain ⟨x, hx, hfx⟩ := List.mem_map.mp he1
          refine ⟨x, hx, ?_, ?_, ?_⟩
          · rw [← ha, ← hfx]
            split_ifs <;> rfl
          · rw [← hp, ← hfx]
            split_ifs <;> rfl
          · rw [← hr, ← hfx]
            split_ifs <;> rfl

/-- Specialization of the loop invariant to the loop's actual initial
state (empty `per_atelier` dict). -/
theorem volSessionFold_caps_init (presBy : Int → Int)
    (l : List (Session × Atelier)) :
    ∀ e ∈ (l.foldl (volSessionStep presBy) {}).per,
      e.planned_capacity = plannedCapSum l e.atelier_id ∧
      e.real_capacity = realCapSum l e.atelier_id := by
  intro e he
  rcases volSessionFold_caps presBy l {} e he with ⟨e0, he0, _⟩ | ⟨_, hpl, hre⟩
  · exact absurd he0 (List.not_mem_nil e0)
  · exact ⟨hpl, hre⟩

/-- C4 (amended): in the per-workshop rollup, `planned_capacity` sums the
effective session capacity (explicit, else workshop default, else 0) over
that workshop's window sessions *whose derived duration is positive* —
sessions whose duration cannot be derived are skipped by the loop's
`continue` — `real_capacity` is the same sum restricted to non-cancelled
sessions, and `occupation_rate` is `presences / real_capacity × 100`
(rounded to one decimal), exactly 0 when `real_capacity` is zero. -/
theorem volume_capacity_rollup_amended (db : DB) (u : Actor)
    (flt : StatsFilters) :
    ∀ row ∈ (computeVolumeActivityStats db u flt).table_ateliers,
      row.planned_capacity =
        plannedCapSum (scopedSessions db u flt) row.atelier_id ∧
      row.real_capacity =
        realCapSum (scopedSessions db u flt) row.atelier_id ∧
      row.occupation_rate = (if row.real_capacity = 0 then 0
        else roundTo ((row.presences : ℚ) / (row.real_capacity : ℚ) * 100) 1) := by
  intro row hrow
  simp only [computeVolumeActivityStats] at hrow
  rw [List.Perm.mem_iff (List.perm_insertionSort _ _)] at hrow
  obtain ⟨e, he, hbe⟩ := List.mem_map.mp hrow
  obtain ⟨e0, he0, haid, hplan, hreal⟩ := volPresenceFold_caps _ _ _ e he
  have hcaps := volSessionFold_caps_init _ _ e0 he0
  refine ⟨?_, ?_, ?_⟩
  · show row.planned_capacity = _
    rw [← hbe]
    show e.planned_capacity = _
    rw [← hplan, hcaps.1, haid]
    rfl
  · rw [← hbe]
    show e.real_capacity = _
    rw [← hreal, hcaps.2, haid]
    rfl
  · rw [← hbe]
    show roundTo (if e.real_capacity = 0 then 0
      else (e.presences : ℚ) / (e.real_capacity : ℚ) * 100) 1 = _
    by_cases h : e.real_capacity = 0
    · simp [buildRow, h, roundTo_zero]
    · simp [buildRow, h]

/-- The C4 counterexample store: a workshop with default capacity 10 and
one (non-cancelled) session whose duration cannot be derived (no parsable
times, no default duration). -/
def c4Workshop : Atelier :=
  { id := 1, secteur := "S", nom := "W", capacite_defaut := some 10 }

def c4db : DB :=
  { ateliers := [c4Workshop]
    sessions :=
      [{ id := 1, atelier_id := 1, secteur := "S",
         date_session := some ⟨2024, 1, 10⟩ }]
    presences := [⟨1, 1, 5⟩] }

def c4u : Actor := { secteur_assigne := some "S" }

/-- C4 counterexample: the session's effective capacity is 10, so the claim
as stated demands `planned_capacity = 10` for the workshop's row; because
the session's duration cannot be derived, the loop's `continue` skips the
capacity accumulation and the code reports 0. -/
theorem volume_capacity_claim_false :
    ((computeVolumeActivityStats c4db c4u {}).table_ateliers.map
      (fun r => (r.atelier_id, r.planned_capacity, r.real_capacity))) =
        [(1, 0, 0)] ∧
    plannedCapSumClaim (scopedSessions c4db c4u {}) 1 = 10 ∧
    (0 : Int) ≠ 10 := by
  refine ⟨by decide, by decide, by decide⟩

/-- The C4 witness store: as `c4db` but with no presences, so that every
rational field of the單 row reduces symbolically. -/
def c4wSession : Session := { id := 1, atelier_id := 1, secteur := "S" }

def c4wdb : DB :=
  { ateliers := [c4Workshop]
    sessions := [c4wSession] }

def c4wRow : AtelierRow :=
  { atelier_id := 1, secteur := "S", nom := "W", type_atelier := "COLLECTIF"
    sessions := 1, presences := 0, uniques := 0
    hours_animator := 0, hours_people := 0
    is_new_vs_previous := false
    sessions_planned := 1, sessions_real := 1
    planned_capacity := 0, real_capacity := 0
    planned_hours := 0, real_hours := 0
    occupation_rate := 0, avg_per_session_real := 0
    activity_duration_days := none }

/-- C4 witness: the single row of the witness store satisfies the amended
rollup equations. -/
theorem volume_capacity_rollup_amended_witness :
    c4wRow ∈ (computeVolumeActivityStats c4wdb c4u {}).table_ateliers ∧
    c4wRow.planned_capacity =
      plannedCapSum (scopedSessions c4wdb c4u {}) c4wRow.atelier_id ∧
    c4wRow.real_capacity =
      realCapSum (scopedSessions c4wdb c4u {}) c4wRow.atelier_id ∧
    c4wRow.occupation_rate = (if c4wRow.real_capacity = 0 then 0
      else roundTo ((c4wRow.presences : ℚ) / (c4wRow.real_capacity : ℚ) * 100) 1) := by
  have hrows : querySessionsForPeriod c4wdb c4u {} none none =
      [(c4wSession, c4Workshop)] := by decide
  have hdur : sessionDurationMinutes c4wSession c4Workshop = 0 := by decide
  have hrealS : isRealSession c4wSession = true := by decide
  have hcap : capVolume c4wSession c4Workshop = 10 := by decide
  have p1 : c4Workshop.id = 1 := rfl
  have p2 : c4Workshop.secteur = "S" := rfl
  have p3 : c4Workshop.nom = "W" := rfl
  have p4 : c4Workshop.type_atelier = "COLLECTIF" := rfl
  have p5 : c4wSession.rdv_date = none := rfl
  have p6 : c4wSession.date_session = none := rfl
  have p7 : c4wSession.id = 1 := rfl
  have hpres : c4wdb.presences = [] := rfl
  have hmem : c4wRow ∈ (computeVolumeActivityStats c4wdb c4u {}).table_ateliers := by
    simp only [computeVolumeActivityStats, hrows]
    norm_num [c4wRow, presencesForSessions, hpres, volSessionStep,
      volUpdEntry, initAcc, hdur, hrealS, hcap, p1, p2, p3, p4, p5, p6, p7,
      buildRow, dateMinOf, dateMaxOf, roundTo_zero,
      List.insertionSort, List.orderedInsert]
  obtain ⟨h1, h2, h3⟩ := volume_capacity_rollup_amended c4wdb c4u {} c4wRow hmem
  exact ⟨hmem, h1, h2, h3⟩

end StatsImpact
